import Mathlib

/-!
# Tribute-nodejs-api: shallow embedding

A shallow embedding of the webhook event processor of the
`Tribute-nodejs-api` repository (`src/TributeSubscriptionManager.js`,
`src/SignatureVerifier.js`, the in-memory store
`src/store/InMemorySubscriptionStore.js` and the typedefs of
`src/types.js`), together with theorems settling the frozen claims
about its specification.

Modelling conventions, used consistently below:

* JavaScript `Date` values are modelled as `Int` (milliseconds since
  epoch).  Date-like inputs that may be absent or unparseable are
  modelled by `JsDate` (`absent` = `undefined`/`null`/`""`, all falsy;
  `invalid s` = a truthy string for which `new Date(s)` is `NaN`;
  `valid t` = a value parsing to time `t`).
* `undefined`/`null` of optional JavaScript fields are modelled as
  `Option.none`; JavaScript truthiness of numbers and strings is made
  explicit (`truthyInt`, `truthyStr`: `0` and `""` are falsy).
* JavaScript `Map`s are modelled as insertion-ordered association
  lists (`mapGet`/`mapSet`/`mapDel` below mirror `Map.get`/`set`/
  `delete`, with `set` updating in place and appending new keys, as
  JavaScript `Map` iteration order requires).
* Asynchronous store calls are sequential in the source (every call is
  `await`ed); they are modelled by explicit state passing.  A thrown
  exception is `Except.error`; state mutations made before a throw are
  kept, exactly as the external store would keep them.
* `TributeSubscriptionManager` extends `EventEmitter`; `emit` calls are
  recorded in an `emitted` log inside the state.
-/

deriving instance DecidableEq for Except

namespace Tribute

/-- A JavaScript date-like value: `absent` covers `undefined`, `null`
and the empty string (all falsy); `invalid s` is a truthy string whose
`new Date(s)` is `NaN`; `valid t` parses to time `t` (ms). -/
inductive JsDate where
  | absent
  | invalid (s : String)
  | valid (t : Int)
deriving DecidableEq, Repr

/-- JavaScript truthiness of an optional number (`0` is falsy). -/
def truthyInt : Option Int → Bool
  | none => false
  | some n => n != 0

/-- JavaScript truthiness of an optional string (`""` is falsy). -/
def truthyStr : Option String → Bool
  | none => false
  | some s => s != ""

/-- JavaScript truthiness of a date-like value: `undefined`/`null`/`""`
are falsy, any other string or `Date` is truthy. -/
def truthyDate : JsDate → Bool
  | .absent => false
  | .invalid _ => true
  | .valid _ => true

/-- Error taxonomy of `src/errors.js`, plus the plain `Error` and
`TypeError` classes of the JavaScript runtime (thrown directly by
`SignatureVerifier.js`) and the rethrown publisher failure. -/
inductive TributeError where
  | signatureError
  | configurationError (msg : String)
  | planNotFound (id : String)
  | intentNotFound
  | subscriptionNotFound
  | donationNotFound
  | publisherError
  | jsError (msg : String)
  | jsTypeError (msg : String)
deriving DecidableEq, Repr

/-! ## SignatureVerifier (`src/SignatureVerifier.js`) -/

/-- Signature encodings accepted by the verifier. -/
inductive SigEncoding where
  | hex
  | base64
deriving DecidableEq, Repr

/-- Value of a hexadecimal digit, `none` for a non-hex character. -/
def hexVal (c : Char) : Option Nat :=
  if '0' ≤ c ∧ c ≤ '9' then some (c.toNat - 48)
  else if 'a' ≤ c ∧ c ≤ 'f' then some (c.toNat - 87)
  else if 'A' ≤ c ∧ c ≤ 'F' then some (c.toNat - 55)
  else none

/-- Hex digit for a value `< 16` (lower case, as Node produces). -/
def hexDigit (n : Nat) : Char :=
  if n < 10 then Char.ofNat (48 + n) else Char.ofNat (87 + n)

/-- Modelled from the spec: Node's `Buffer.from(s, "hex")` decoder
(external to the repository).  It consumes complete pairs of hex
digits and truncates at the first invalid character or incomplete
pair. -/
def hexDecodeAux : List Char → List Nat
  | c1 :: c2 :: rest =>
    match hexVal c1, hexVal c2 with
    | some h, some l => (16 * h + l) :: hexDecodeAux rest
    | _, _ => []
  | _ => []

def hexDecode (s : String) : List Nat :=
  hexDecodeAux s.data

/-- Hex encoding of a byte sequence (each byte `< 256`). -/
def hexEncode (bs : List Nat) : String :=
  String.mk (bs.flatMap fun b => [hexDigit (b / 16 % 16), hexDigit (b % 16)])

/-- Index of a character in the standard base64 alphabet, `none` for a
character outside it. -/
def base64Val (c : Char) : Option Nat :=
  if 'A' ≤ c ∧ c ≤ 'Z' then some (c.toNat - 65)
  else if 'a' ≤ c ∧ c ≤ 'z' then some (c.toNat - 71)
  else if '0' ≤ c ∧ c ≤ '9' then some (c.toNat + 4)
  else if c = '+' then some 62
  else if c = '/' then some 63
  else none

/-- Character of the standard base64 alphabet for a value `< 64`. -/
def base64Digit (n : Nat) : Char :=
  if n < 26 then Char.ofNat (65 + n)
  else if n < 52 then Char.ofNat (71 + n)
  else if n < 62 then Char.ofNat (n - 4)
  else if n = 62 then '+' else '/'

/-- Decode a run of base64 alphabet values, four at a time (a tail of
two or three values yields one or two bytes). -/
def base64DecodeGroups : List Nat → List Nat
  | a :: b :: c :: d :: rest =>
    (a * 4 + b / 16) :: (b % 16 * 16 + c / 4) :: (c % 4 * 64 + d) ::
      base64DecodeGroups rest
  | [a, b] => [a * 4 + b / 16]
  | [a, b, c] => [a * 4 + b / 16, b % 16 * 16 + c / 4]
  | _ => []

/-- Modelled from the spec: Node's `Buffer.from(s, "base64")` decoder
(external to the repository), which skips characters outside the
alphabet and stops at padding. -/
def base64Decode (s : String) : List Nat :=
  base64DecodeGroups
    (((s.data.takeWhile (· ≠ '=')).filterMap base64Val))

/-- Base64 encoding with padding of a byte sequence. -/
def base64Encode : List Nat → String
  | a :: b :: c :: rest =>
    String.mk [base64Digit (a / 4), base64Digit (a % 4 * 16 + b / 16),
      base64Digit (b % 16 * 4 + c / 64), base64Digit (c % 64)] ++
      base64Encode rest
  | [a, b] =>
    String.mk [base64Digit (a / 4), base64Digit (a % 4 * 16 + b / 16),
      base64Digit (b % 16 * 4), '=']
  | [a] =>
    String.mk [base64Digit (a / 4), base64Digit (a % 4 * 16), '=', '=']
  | [] => ""

/-- `hmac.digest(encoding)`: encode a raw digest. -/
def encodeDigest : SigEncoding → List Nat → String
  | .hex, bs => hexEncode bs
  | .base64, bs => base64Encode bs

/-- `Buffer.from(s, encoding)`: decode an encoded string to bytes. -/
def decodeBuffer : SigEncoding → String → List Nat
  | .hex, s => hexDecode s
  | .base64, s => base64Decode s

/-- `crypto.timingSafeEqual` on two buffers of equal length: byte
equality (the constant-time aspect is not observable here). -/
def timingSafeEqual (a b : List Nat) : Bool :=
  a == b

/-- `verifyTributeSignature` of `src/SignatureVerifier.js`,
parameterized by the keyed digest function `hmac` (the HMAC-SHA-256 of
`node:crypto`, external to the repository).  The raw body
normalization (`normalizeBody`) maps every accepted input shape to a
byte sequence, so the body is taken here as `List Nat` directly.
Returns `Except` because a missing API key throws a plain `Error`. -/
def verifyTributeSignatureWith (hmac : List Nat → String → List Nat)
    (rawBody : List Nat) (signatureHeader : Option String)
    (apiKey : String) (encoding : SigEncoding) :
    Except TributeError Bool :=
  if apiKey = "" then
    .error (.jsError "Tribute API key is required for signature verification")
  else if ¬ truthyStr signatureHeader then
    .ok false
  else
    let digest := encodeDigest encoding (hmac rawBody apiKey)
    let expected := decodeBuffer encoding digest
    let provided := decodeBuffer encoding ((signatureHeader).getD "")
    if expected.length ≠ provided.length then
      .ok false
    else
      .ok (timingSafeEqual expected provided)

/-- Modelled from the spec: the keyed SHA-256 digest of `node:crypto`
is external to the repository; it is modelled as an arbitrary fixed
function producing a 32-byte digest, which is all that the
verification logic observes. -/
def hmacModel (body : List Nat) (key : String) : List Nat :=
  List.replicate 32 ((body.foldl (· + ·) 0 + key.length) % 256)

/-- The exported `verifyTributeSignature`, with the digest primitive
instantiated by its model. -/
def verifyTributeSignature (rawBody : List Nat)
    (signatureHeader : Option String) (apiKey : String)
    (encoding : SigEncoding) : Except TributeError Bool :=
  verifyTributeSignatureWith hmacModel rawBody signatureHeader apiKey encoding

/-! ## Data model (`src/types.js`) -/

/-- Metadata objects are opaque to the processor (copied, never
inspected); modelled as string association lists. -/
abbrev Meta := List (String × String)

/-- `TributePlan` of `src/types.js`.  `amount` and `currency` are
required by the typedef but the matching code guards `undefined`, so
they are kept optional; `period` is a required string (JavaScript
truthiness treats `""` as unset). -/
structure Plan where
  id : String
  title : String
  amount : Option Int
  currency : Option String
  period : String
  subscriptionLink : String
  tributeSubscriptionId : Option Int
  tributePeriodId : Option Int
  price : Option Int
  metadata : Option Meta
deriving DecidableEq, Repr

/-- `SubscriptionIntent` of `src/types.js` (its `expiresAt` is always a
`Date` for intents created by `createSubscriptionIntent`). -/
structure Intent where
  id : String
  planId : String
  telegramUserId : Int
  createdAt : Int
  expiresAt : Int
  metadata : Meta
deriving DecidableEq, Repr

inductive SubStatus where
  | pending
  | active
  | cancelled
deriving DecidableEq, Repr

inductive DonStatus where
  | completed
  | active
  | cancelled
deriving DecidableEq, Repr

/-- `StoredSubscription` of `src/types.js`. -/
structure StoredSubscription where
  planId : String
  tributeSubscriptionId : Option Int
  tributePeriodId : Option Int
  telegramUserId : Option Int
  userId : Option Int
  amount : Option Int
  currency : Option String
  period : Option String
  status : SubStatus
  createdAt : Int
  lastEventAt : Int
  expiresAt : Option Int
  cancelledAt : Option Int
  cancelReason : Option String
  metadata : Meta
deriving DecidableEq, Repr

/-- `StoredDonation` of `src/types.js`. -/
structure StoredDonation where
  donationRequestId : Int
  donationName : String
  telegramUserId : Option Int
  userId : Option Int
  period : String
  amount : Int
  currency : String
  anonymously : Bool
  message : Option String
  webAppLink : Option String
  status : DonStatus
  createdAt : Int
  lastEventAt : Int
  cancelledAt : Option Int
  metadata : Meta
deriving DecidableEq, Repr

/-- Webhook payload fields read by the processor.  `metadata_intent_id`
models `payload.metadata?.intent_id` (the only payload-metadata field
ever read). -/
structure Payload where
  subscription_id : Option Int
  period_id : Option Int
  price : Option Int
  currency : Option String
  period : Option String
  amount : Option Int
  telegram_user_id : Option Int
  user_id : Option Int
  intent_id : Option String
  metadata_intent_id : Option String
  expires_at : JsDate
  cancel_reason : Option String
  donation_request_id : Option Int
  donation_name : Option String
  anonymously : Option Bool
  message : Option String
  web_app_link : Option String
deriving DecidableEq, Repr

/-- The all-absent payload, for building concrete examples. -/
def Payload.empty : Payload where
  subscription_id := none
  period_id := none
  price := none
  currency := none
  period := none
  amount := none
  telegram_user_id := none
  user_id := none
  intent_id := none
  metadata_intent_id := none
  expires_at := .absent
  cancel_reason := none
  donation_request_id := none
  donation_name := none
  anonymously := none
  message := none
  web_app_link := none

/-- `TributeEventEnvelope` of `src/types.js` (already JSON-parsed). -/
structure Envelope where
  name : String
  created_at : JsDate
  sent_at : JsDate
  payload : Payload
deriving DecidableEq, Repr

inductive PaymentKind where
  | subscription
  | donation
deriving DecidableEq, Repr

/-- `PaymentRecord` of `src/types.js`: an append-only ledger entry. -/
structure PaymentRecord where
  kind : PaymentKind
  tributeSubscriptionId : Option Int
  planId : Option String
  donationRequestId : Option Int
  telegramUserId : Option Int
  userId : Option Int
  amount : Option Int
  currency : Option String
  paidAt : Int
  payload : Payload
deriving DecidableEq, Repr

/-- The `{ ...payload, sent_at: event.sent_at }` snapshot attached to a
cancellation (and any caller-supplied object on the manual path: only
its `sent_at` is ever read, by the store). -/
structure CancelPayload where
  base : Payload
  sent_at : JsDate
deriving DecidableEq, Repr

/-- `CancellationRecord` of `src/types.js`. -/
structure CancellationRecord where
  cancelledAt : Int
  cancelReason : Option String
  payload : Option CancelPayload
deriving DecidableEq, Repr

inductive IntentStatus where
  | matched
  | expired
deriving DecidableEq, Repr

inductive SubType where
  | created
  | renewed
  | cancelled
deriving DecidableEq, Repr

inductive DonType where
  | created
  | recurrent
  | cancelled
deriving DecidableEq, Repr

/-- Context attached to a `SubscriptionEventResult`.
`cancellationSource` models the `source` key spread into the
cancellation context on the manual path (`source: 'manual'`); it is
absent for provider-driven cancellations. -/
structure SubContext where
  event : Option Envelope
  intent : Option Intent
  intentStatus : Option IntentStatus
  previousSubscription : Option StoredSubscription
  cancellation : Option CancellationRecord
  cancellationSource : Option String
deriving DecidableEq, Repr

/-- The context of a non-cancellation subscription result (`{ event }`
plus optional intent data). -/
def SubContext.plain (ev : Envelope) : SubContext where
  event := some ev
  intent := none
  intentStatus := none
  previousSubscription := none
  cancellation := none
  cancellationSource := none

/-- Context attached to a `DonationEventResult`. -/
structure DonContext where
  event : Option Envelope
  cancellation : Option CancellationRecord
deriving DecidableEq, Repr

/-- `TributeEventResult` of `src/types.js`. -/
inductive TributeEventResult where
  | subscription (type : SubType) (sub : StoredSubscription) (ctx : SubContext)
  | donation (type : DonType) (don : StoredDonation) (ctx : DonContext)
deriving DecidableEq, Repr

/-- Event name suffix used in `subscription.${result.type}`. -/
def SubType.str : SubType → String
  | .created => "created"
  | .renewed => "renewed"
  | .cancelled => "cancelled"

/-- Event name suffix used in `donation.${result.type}`. -/
def DonType.str : DonType → String
  | .created => "created"
  | .recurrent => "recurrent"
  | .cancelled => "cancelled"

/-! ## Insertion-ordered maps (JavaScript `Map`) -/

variable {κ ν : Type}

/-- `Map.get`. -/
def mapGet [DecidableEq κ] (m : List (κ × ν)) (k : κ) : Option ν :=
  match m with
  | [] => none
  | (k', v) :: rest => if k' = k then some v else mapGet rest k

/-- `Map.set`: update in place, append when new (insertion order). -/
def mapSet [DecidableEq κ] (m : List (κ × ν)) (k : κ) (v : ν) :
    List (κ × ν) :=
  match m with
  | [] => [(k, v)]
  | (k', v') :: rest =>
    if k' = k then (k, v) :: rest else (k', v') :: mapSet rest k v

/-- `Map.delete`. -/
def mapDel [DecidableEq κ] (m : List (κ × ν)) (k : κ) : List (κ × ν) :=
  match m with
  | [] => []
  | (k', v') :: rest =>
    if k' = k then rest else (k', v') :: mapDel rest k

/-! ## Store state (`src/store/InMemorySubscriptionStore.js`)

Subscriptions are keyed by the raw `tributeSubscriptionId` value used
by the JavaScript `Map` — including `undefined` (here `none`) when a
payload carries no subscription id. -/

structure StoreState where
  intents : List (String × Intent)
  subscriptions : List (Option Int × StoredSubscription)
  payments : List PaymentRecord
  donations : List (Int × StoredDonation)
  emitted : List (String × TributeEventResult)
deriving DecidableEq, Repr

/-- The empty store. -/
def StoreState.empty : StoreState where
  intents := []
  subscriptions := []
  payments := []
  donations := []
  emitted := []

/-- `InMemorySubscriptionStore.consumeIntent`: look up and delete. -/
def consumeIntent (s : StoreState) (intentId : String) :
    StoreState × Option Intent :=
  ({ s with intents := mapDel s.intents intentId },
    mapGet s.intents intentId)

/-- Loop body of
`InMemorySubscriptionStore.consumeIntentByTelegramAndPlan` (identical
to the manager's in-memory fallback `#consumeIntentByTelegramAndPlan`):
scan intents in insertion order, deleting expired intents of the same
user and plan along the way, and consume the first live match. -/
def consumeIntentByTgAux (now : Int) (telegramUserId : Int)
    (planId : String) : List (String × Intent) →
    List (String × Intent) × Option Intent
  | [] => ([], none)
  | (k, intent) :: rest =>
    if intent.planId = planId ∧ intent.telegramUserId = telegramUserId then
      if intent.expiresAt < now then
        consumeIntentByTgAux now telegramUserId planId rest
      else
        (rest, some intent)
    else
      let (rest', r) := consumeIntentByTgAux now telegramUserId planId rest
      ((k, intent) :: rest', r)

/-- `InMemorySubscriptionStore.consumeIntentByTelegramAndPlan` (uses
`Date.now()`, passed in as `now`). -/
def consumeIntentByTelegramAndPlan (now : Int) (s : StoreState)
    (telegramUserId : Int) (planId : String) :
    StoreState × Option Intent :=
  let (intents', r) := consumeIntentByTgAux now telegramUserId planId s.intents
  ({ s with intents := intents' }, r)

/-- `InMemorySubscriptionStore.upsertSubscription`: set by
`tributeSubscriptionId` and return the previous record. -/
def upsertSubscription (s : StoreState) (sub : StoredSubscription) :
    StoreState × Option StoredSubscription :=
  ({ s with subscriptions :=
      mapSet s.subscriptions sub.tributeSubscriptionId sub },
    mapGet s.subscriptions sub.tributeSubscriptionId)

/-- `lastEventAt` value chosen by the in-memory store's cancellation
primitives: the cancellation snapshot's `sent_at` when truthy and
parseable, else the cancellation timestamp. -/
def cancellationLastEventAt (c : CancellationRecord) : Int :=
  match c.payload with
  | none => c.cancelledAt
  | some p =>
    match p.sent_at with
    | .absent => c.cancelledAt
    | .invalid _ => c.cancelledAt
    | .valid t => t

/-- `InMemorySubscriptionStore.markSubscriptionCancelled`. -/
def markSubscriptionCancelled (s : StoreState) (key : Option Int)
    (c : CancellationRecord) : StoreState × Option StoredSubscription :=
  match mapGet s.subscriptions key with
  | none => (s, none)
  | some sub =>
    let updated := { sub with
      status := .cancelled
      cancelledAt := some c.cancelledAt
      cancelReason := c.cancelReason
      lastEventAt := cancellationLastEventAt c }
    ({ s with subscriptions := mapSet s.subscriptions key updated },
      some updated)

/-- `InMemorySubscriptionStore.recordPayment`: append-only push. -/
def recordPayment (s : StoreState) (p : PaymentRecord) : StoreState :=
  { s with payments := s.payments ++ [p] }

/-- `InMemorySubscriptionStore.upsertDonation`. -/
def upsertDonation (s : StoreState) (d : StoredDonation) : StoreState :=
  { s with donations := mapSet s.donations d.donationRequestId d }

/-- `InMemorySubscriptionStore.markDonationCancelled` (same
`lastEventAt` choice as the subscription variant, no cancel reason). -/
def markDonationCancelled (s : StoreState) (key : Int)
    (c : CancellationRecord) : StoreState × Option StoredDonation :=
  match mapGet s.donations key with
  | none => (s, none)
  | some don =>
    let updated := { don with
      status := .cancelled
      cancelledAt := some c.cancelledAt
      lastEventAt := cancellationLastEventAt c }
    ({ s with donations := mapSet s.donations key updated },
      some updated)

/-! ## Manager configuration and helpers
(`src/TributeSubscriptionManager.js`) -/

inductive PublisherFailureMode where
  | throw
  | log
deriving DecidableEq, Repr

/-- Constructor-time configuration of `TributeSubscriptionManager`
relevant to event processing.  `eventPublisher`: `none` = no external
publisher; `some fails` = a publisher that raises iff `fails` when
invoked (its behaviour is external input). -/
structure Config where
  plans : List Plan
  allowedWebhookEvents : List String
  eventPublisher : Option Bool
  eventPublisherFailureMode : PublisherFailureMode
  intentTtlMs : Int
deriving DecidableEq, Repr

/-- `#parseDate`: throws a `TributeConfigurationError` when the value
is missing or does not parse. -/
def parseDate (v : JsDate) (fieldName : String) :
    Except TributeError Int :=
  match v with
  | .absent => .error (.configurationError
      ("Tribute webhook is missing required \"" ++ fieldName ++ "\" timestamp"))
  | .invalid s => .error (.configurationError
      ("Invalid \"" ++ fieldName ++ "\" timestamp: " ++ s))
  | .valid t => .ok t

/-- `#getEventTimestamp`: `sent_at` when truthy, else `created_at`. -/
def getEventTimestamp (ev : Envelope) : Except TributeError Int :=
  if truthyDate ev.sent_at then parseDate ev.sent_at "sent_at"
  else parseDate ev.created_at "created_at"

/-- `#getEventCreatedAt`. -/
def getEventCreatedAt (ev : Envelope) : Except TributeError Int :=
  parseDate ev.created_at "created_at"

/-- `#isOutdatedEvent`: a previous watermark that is a `Date` and is
`≥` the incoming one marks the event as outdated.  (In the embedding
stored watermarks are always dates, so only the comparison remains of
the `instanceof Date` guard.) -/
def isOutdatedEvent (previous : Option Int) (incoming : Int) : Bool :=
  match previous with
  | none => false
  | some p => p ≥ incoming

/-- `String(...)` of the best-available identifying payload field, as
put into `TributePlanNotFoundError`:
`payload.subscription_id ?? payload.period_id ?? payload.price`. -/
def bestPlanId (p : Payload) : String :=
  match p.subscription_id with
  | some n => toString n
  | none =>
    match p.period_id with
    | some n => toString n
    | none =>
      match p.price with
      | some n => toString n
      | none => "undefined"

/-- JavaScript's `String.prototype.toLowerCase` (external primitive),
modelled as a character-wise lowering. -/
def jsToLower (s : String) : String :=
  String.mk (s.data.map Char.toLower)

/-- Matching predicate of `#findPlanForPayload`, translated clause by
clause from the early-return chain of the source. -/
def planMatches (plan : Plan) (payload : Payload) : Bool :=
  (match plan.tributeSubscriptionId with
   | none => true
   | some v => payload.subscription_id == some v) &&
  (match plan.tributePeriodId with
   | none => true
   | some v => payload.period_id == some v) &&
  (match plan.price with
   | none => true
   | some v => payload.price == some v) &&
  (match plan.currency with
   | none => true
   | some c => jsToLower c == jsToLower ((payload.currency).getD "")) &&
  (if plan.period ≠ "" ∧ truthyStr payload.period then
     payload.period == some plan.period
   else true) &&
  (match plan.amount with
   | none => true
   | some a => payload.amount == some a || payload.price == some a)

/-- `#findPlanForPayload`: first configured plan matching the
payload. -/
def findPlanForPayload (plans : List Plan) (payload : Payload) :
    Option Plan :=
  plans.find? (fun plan => planMatches plan payload)

/-- `#evaluateIntent`: `expired` when the intent's expiry strictly
precedes the event's ordering timestamp (the mismatch warnings of the
source only log). -/
def evaluateIntent (intent : Intent) (eventTimestamp : Int) :
    IntentStatus :=
  if intent.expiresAt < eventTimestamp then .expired else .matched

/-- `#publishEvent`: no publisher → no-op; a failing publisher raises
in `throw` mode and is swallowed (after logging) in `log` mode. -/
def publishEvent (cfg : Config) : Except TributeError Unit :=
  match cfg.eventPublisher with
  | none => .ok ()
  | some fails =>
    if fails then
      match cfg.eventPublisherFailureMode with
      | .throw => .error .publisherError
      | .log => .ok ()
    else .ok ()

/-- Notification names for a result: the specific transition, the
category-wide listener, and the fully generic listener, in the fixed
order every handler uses (`subscription.${type}`/`subscription.any`/
`event`, resp. `donation.*`). -/
def emissionNames : TributeEventResult → List String
  | .subscription ty _ _ => ["subscription." ++ ty.str, "subscription.any", "event"]
  | .donation ty _ _ => ["donation." ++ ty.str, "donation.any", "event"]

/-- The `emit`/`#publishEvent` tail common to every handler: record
the three notifications in order, then invoke the publisher and return
the result — or rethrow its failure in `throw` mode, after the store
writes and local notifications already happened. -/
def emitAndPublish (cfg : Config) (s : StoreState) (r : TributeEventResult) :
    StoreState × Except TributeError (Option TributeEventResult) :=
  let s' := { s with
    emitted := s.emitted ++ (emissionNames r).map (fun n => (n, r)) }
  match publishEvent cfg with
  | .ok _ => (s', .ok (some r))
  | .error e => (s', .error e)

/-- Wrap a handler's store-level outcome with the notification /
publication tail: successful results are emitted and published,
duplicates (`none`) and errors pass through. -/
def finishEvent (cfg : Config)
    (out : StoreState × Except TributeError (Option TributeEventResult)) :
    StoreState × Except TributeError (Option TributeEventResult) :=
  match out with
  | (s, .ok (some r)) => emitAndPublish cfg s r
  | out => out

/-! ## The five webhook handlers

Each handler is split into a *core* — everything up to and including
the store writes, which depends on the configuration only through the
plan catalog — and the common `finishEvent` tail above, exactly
mirroring the uniform `emit`×3 + `#publishEvent` ending of every
handler in the source. -/

/-- Intent resolution of `#handleNewSubscription` (lines 436–456 of
`TributeSubscriptionManager.js`), reached only when no subscription is
stored: consume by `intent_id` when one is carried (truthy), fall back
to the telegram-id/plan scan, and fail with
`TributeIntentNotFoundError` when nothing is found (keeping any
evictions the scan performed). -/
def resolveIntent (now : Int) (s : StoreState) (plan : Plan)
    (payload : Payload) (eventTimestamp : Int) :
    StoreState × Except TributeError (Intent × IntentStatus) :=
  let intentId := payload.intent_id <|> payload.metadata_intent_id
  let (s1, intent0) :=
    if truthyStr intentId then consumeIntent s (intentId.getD "")
    else (s, none)
  let (s2, intent1) :=
    match intent0, payload.telegram_user_id with
    | none, some tg => consumeIntentByTelegramAndPlan now s1 tg plan.id
    | _, _ => (s1, intent0)
  match intent1 with
  | none => (s2, .error .intentNotFound)
  | some intent => (s2, .ok (intent, evaluateIntent intent eventTimestamp))

/-- Store-level part of `#handleNewSubscription`. -/
def handleNewSubscriptionCore (plans : List Plan) (now : Int)
    (s : StoreState) (ev : Envelope) :
    StoreState × Except TributeError (Option TributeEventResult) :=
  let payload := ev.payload
  match findPlanForPayload plans payload with
  | none => (s, .error (.planNotFound (bestPlanId payload)))
  | some plan =>
    match getEventTimestamp ev with
    | .error e => (s, .error e)
    | .ok eventTimestamp =>
      match getEventCreatedAt ev with
      | .error e => (s, .error e)
      | .ok createdAt =>
        let existingSubscription : Option StoredSubscription :=
          if truthyInt payload.subscription_id then
            mapGet s.subscriptions payload.subscription_id
          else none
        if (match existingSubscription with
            | some ex => isOutdatedEvent (some ex.lastEventAt) eventTimestamp
            | none => false) then
          (s, .ok none)
        else
          let intentStep :
              StoreState × Except TributeError (Option (Intent × IntentStatus)) :=
            match existingSubscription with
            | some _ => (s, .ok none)
            | none =>
              let (s', r) := resolveIntent now s plan payload eventTimestamp
              (s', r.map some)
          match intentStep with
          | (s2, .error e) => (s2, .error e)
          | (s2, .ok intentInfo) =>
            let expiresAtE : Except TributeError (Option Int) :=
              if truthyDate payload.expires_at then
                (parseDate payload.expires_at "payload.expires_at").map some
              else .ok (existingSubscription.bind (·.expiresAt))
            match expiresAtE with
            | .error e => (s2, .error e)
            | .ok expiresAt =>
              let subscriptionRecord : StoredSubscription :=
                { planId := plan.id
                  tributeSubscriptionId := payload.subscription_id
                  tributePeriodId := payload.period_id
                  telegramUserId :=
                    payload.telegram_user_id <|>
                      existingSubscription.bind (·.telegramUserId)
                  userId :=
                    payload.user_id <|> existingSubscription.bind (·.userId)
                  amount := payload.price <|> payload.amount <|> plan.amount
                  currency := payload.currency <|> plan.currency
                  period := payload.period <|> some plan.period
                  status := .active
                  createdAt :=
                    match existingSubscription with
                    | some ex => ex.createdAt
                    | none => createdAt
                  lastEventAt := eventTimestamp
                  expiresAt := expiresAt
                  cancelledAt := none
                  cancelReason := none
                  metadata :=
                    match existingSubscription with
                    | some ex => ex.metadata
                    | none =>
                      match intentInfo with
                      | some (i, _) => i.metadata
                      | none => (plan.metadata).getD [] }
              let (s3, previous) := upsertSubscription s2 subscriptionRecord
              let s4 := recordPayment s3
                { kind := .subscription
                  tributeSubscriptionId := subscriptionRecord.tributeSubscriptionId
                  planId := some subscriptionRecord.planId
                  donationRequestId := none
                  telegramUserId := subscriptionRecord.telegramUserId
                  userId :=
                    payload.user_id <|> existingSubscription.bind (·.userId)
                  amount := subscriptionRecord.amount
                  currency := subscriptionRecord.currency
                  paidAt := createdAt
                  payload := payload }
              let ty : SubType := if previous.isSome then .renewed else .created
              let context : SubContext :=
                { event := some ev
                  intent := intentInfo.map (·.1)
                  intentStatus := intentInfo.map (·.2)
                  previousSubscription := previous
                  cancellation := none
                  cancellationSource := none }
              (s4, .ok (some (.subscription ty subscriptionRecord context)))

/-- `#handleNewSubscription`. -/
def handleNewSubscription (cfg : Config) (now : Int) (s : StoreState)
    (ev : Envelope) :
    StoreState × Except TributeError (Option TributeEventResult) :=
  finishEvent cfg (handleNewSubscriptionCore cfg.plans now s ev)

/-- Store-level part of `#handleCancelledSubscription`.  The manager
raises the returned record's `lastEventAt` to the ordering timestamp
in place; the in-memory store holds the very same object, so the
stored record is updated with it. -/
def handleCancelledSubscriptionCore (plans : List Plan) (s : StoreState)
    (ev : Envelope) :
    StoreState × Except TributeError (Option TributeEventResult) :=
  let payload := ev.payload
  match findPlanForPayload plans payload with
  | none => (s, .error (.planNotFound (bestPlanId payload)))
  | some _plan =>
    match getEventTimestamp ev with
    | .error e => (s, .error e)
    | .ok eventTimestamp =>
      match getEventCreatedAt ev with
      | .error e => (s, .error e)
      | .ok cancellationAt =>
        let existingSubscription : Option StoredSubscription :=
          if truthyInt payload.subscription_id then
            mapGet s.subscriptions payload.subscription_id
          else none
        if (match existingSubscription with
            | some ex =>
              match ex.cancelledAt with
              | some c => isOutdatedEvent (some c) cancellationAt
              | none => false
            | none => false) then
          (s, .ok none)
        else if (match existingSubscription with
            | some ex => isOutdatedEvent (some ex.lastEventAt) eventTimestamp
            | none => false) then
          (s, .ok none)
        else
          let cancellation : CancellationRecord :=
            { cancelledAt := cancellationAt
              cancelReason := payload.cancel_reason
              payload := some { base := payload, sent_at := ev.sent_at } }
          match markSubscriptionCancelled s payload.subscription_id cancellation with
          | (s1, none) => (s1, .error .subscriptionNotFound)
          | (s1, some updated) =>
            let (s2, updated2) :=
              if updated.lastEventAt < eventTimestamp then
                let u := { updated with lastEventAt := eventTimestamp }
                let subs := mapSet s1.subscriptions payload.subscription_id u
                ({ s1 with subscriptions := subs }, u)
              else (s1, updated)
            let context : SubContext :=
              { event := some ev
                intent := none
                intentStatus := none
                previousSubscription := none
                cancellation := some cancellation
                cancellationSource := none }
            (s2, .ok (some (.subscription .cancelled updated2 context)))

/-- `#handleCancelledSubscription`. -/
def handleCancelledSubscription (cfg : Config) (s : StoreState)
    (ev : Envelope) :
    StoreState × Except TributeError (Option TributeEventResult) :=
  finishEvent cfg (handleCancelledSubscriptionCore cfg.plans s ev)

/-- Store-level part of `#handleNewDonation`. -/
def handleNewDonationCore (s : StoreState) (ev : Envelope) :
    StoreState × Except TributeError (Option TributeEventResult) :=
  let payload := ev.payload
  match payload.donation_request_id with
  | none => (s, .error (.configurationError
      "donation_request_id is required for donation events"))
  | some donationRequestId =>
    match payload.telegram_user_id with
    | none => (s, .error (.configurationError
        "telegram_user_id is required for donation events"))
    | some _ =>
      let existing := mapGet s.donations donationRequestId
      let period := (payload.period <|> existing.map (·.period)).getD "once"
      match getEventTimestamp ev with
      | .error e => (s, .error e)
      | .ok eventTimestamp =>
        let createdAtE : Except TributeError Int :=
          match existing with
          | some ex => .ok ex.createdAt
          | none => getEventCreatedAt ev
        match createdAtE with
        | .error e => (s, .error e)
        | .ok createdAt =>
          if (match existing with
              | some ex => isOutdatedEvent (some ex.lastEventAt) eventTimestamp
              | none => false) then
            (s, .ok none)
          else
            let donationRecord : StoredDonation :=
              { donationRequestId := donationRequestId
                donationName :=
                  (payload.donation_name <|> existing.map (·.donationName)).getD ""
                telegramUserId :=
                  payload.telegram_user_id <|> existing.bind (·.telegramUserId)
                userId := payload.user_id <|> existing.bind (·.userId)
                period := period
                amount := (payload.amount <|> existing.map (·.amount)).getD 0
                currency := (payload.currency <|> existing.map (·.currency)).getD ""
                anonymously :=
                  match payload.anonymously with
                  | some b => b
                  | none => (existing.map (·.anonymously)).getD false
                message := payload.message <|> existing.bind (·.message)
                webAppLink := payload.web_app_link <|> existing.bind (·.webAppLink)
                status := if period = "once" then .completed else .active
                createdAt := createdAt
                lastEventAt := eventTimestamp
                cancelledAt := none
                metadata := (existing.map (·.metadata)).getD [] }
            let s1 := upsertDonation s donationRecord
            let s2 := recordPayment s1
              { kind := .donation
                tributeSubscriptionId := none
                planId := none
                donationRequestId := some donationRequestId
                telegramUserId := donationRecord.telegramUserId
                userId := donationRecord.userId
                amount := some donationRecord.amount
                currency := some donationRecord.currency
                paidAt := createdAt
                payload := payload }
            (s2, .ok (some (.donation .created donationRecord
              { event := some ev, cancellation := none })))

/-- `#handleNewDonation`. -/
def handleNewDonation (cfg : Config) (s : StoreState) (ev : Envelope) :
    StoreState × Except TributeError (Option TributeEventResult) :=
  finishEvent cfg (handleNewDonationCore s ev)

/-- Store-level part of `#handleRecurrentDonation` (a missing prior
record only logs a warning and a fresh record is synthesized). -/
def handleRecurrentDonationCore (s : StoreState) (ev : Envelope) :
    StoreState × Except TributeError (Option TributeEventResult) :=
  let payload := ev.payload
  match payload.donation_request_id with
  | none => (s, .error (.configurationError
      "donation_request_id is required for donation events"))
  | some donationRequestId =>
    match payload.telegram_user_id with
    | none => (s, .error (.configurationError
        "telegram_user_id is required for donation events"))
    | some _ =>
      let existing := mapGet s.donations donationRequestId
      match getEventTimestamp ev with
      | .error e => (s, .error e)
      | .ok eventTimestamp =>
        let createdAtE : Except TributeError Int :=
          match existing with
          | some ex => .ok ex.createdAt
          | none => getEventCreatedAt ev
        match createdAtE with
        | .error e => (s, .error e)
        | .ok createdAt =>
          if (match existing with
              | some ex => isOutdatedEvent (some ex.lastEventAt) eventTimestamp
              | none => false) then
            (s, .ok none)
          else
            let donationRecord : StoredDonation :=
              { donationRequestId := donationRequestId
                donationName :=
                  (payload.donation_name <|> existing.map (·.donationName)).getD ""
                telegramUserId :=
                  payload.telegram_user_id <|> existing.bind (·.telegramUserId)
                userId := payload.user_id <|> existing.bind (·.userId)
                period := (payload.period <|> existing.map (·.period)).getD "monthly"
                amount := (payload.amount <|> existing.map (·.amount)).getD 0
                currency := (payload.currency <|> existing.map (·.currency)).getD ""
                anonymously :=
                  match payload.anonymously with
                  | some b => b
                  | none => (existing.map (·.anonymously)).getD false
                message := existing.bind (·.message) <|> payload.message
                webAppLink := payload.web_app_link <|> existing.bind (·.webAppLink)
                status :=
                  if (match existing with
                      | some ex => ex.status == DonStatus.cancelled
                      | none => false) then .cancelled else .active
                createdAt := createdAt
                lastEventAt := eventTimestamp
                cancelledAt := existing.bind (·.cancelledAt)
                metadata := (existing.map (·.metadata)).getD [] }
            let s1 := upsertDonation s donationRecord
            let s2 := recordPayment s1
              { kind := .donation
                tributeSubscriptionId := none
                planId := none
                donationRequestId := some donationRequestId
                telegramUserId := donationRecord.telegramUserId
                userId := donationRecord.userId
                amount := some donationRecord.amount
                currency := some donationRecord.currency
                paidAt := createdAt
                payload := payload }
            (s2, .ok (some (.donation .recurrent donationRecord
              { event := some ev, cancellation := none })))

/-- `#handleRecurrentDonation`. -/
def handleRecurrentDonation (cfg : Config) (s : StoreState) (ev : Envelope) :
    StoreState × Except TributeError (Option TributeEventResult) :=
  finishEvent cfg (handleRecurrentDonationCore s ev)

/-- Store-level part of `#handleCancelledDonation` (same in-place
`lastEventAt` raising as the subscription cancellation handler; the
donation cancellation record carries no cancel reason). -/
def handleCancelledDonationCore (s : StoreState) (ev : Envelope) :
    StoreState × Except TributeError (Option TributeEventResult) :=
  let payload := ev.payload
  match payload.donation_request_id with
  | none => (s, .error (.configurationError
      "donation_request_id is required for donation events"))
  | some donationRequestId =>
    match getEventTimestamp ev with
    | .error e => (s, .error e)
    | .ok eventTimestamp =>
      match getEventCreatedAt ev with
      | .error e => (s, .error e)
      | .ok cancelledAt =>
        let existing := mapGet s.donations donationRequestId
        if (match existing with
            | some ex =>
              match ex.cancelledAt with
              | some c => isOutdatedEvent (some c) cancelledAt
              | none => false
            | none => false) then
          (s, .ok none)
        else if (match existing with
            | some ex => isOutdatedEvent (some ex.lastEventAt) eventTimestamp
            | none => false) then
          (s, .ok none)
        else
          let cancellation : CancellationRecord :=
            { cancelledAt := cancelledAt
              cancelReason := none
              payload := some { base := payload, sent_at := ev.sent_at } }
          match markDonationCancelled s donationRequestId cancellation with
          | (s1, none) => (s1, .error .donationNotFound)
          | (s1, some donation) =>
            let (s2, donation2) :=
              if donation.lastEventAt < eventTimestamp then
                let u := { donation with lastEventAt := eventTimestamp }
                let dons := mapSet s1.donations donationRequestId u
                ({ s1 with donations := dons }, u)
              else (s1, donation)
            (s2, .ok (some (.donation .cancelled donation2
              { event := some ev, cancellation := some cancellation })))

/-- `#handleCancelledDonation`. -/
def handleCancelledDonation (cfg : Config) (s : StoreState) (ev : Envelope) :
    StoreState × Except TributeError (Option TributeEventResult) :=
  finishEvent cfg (handleCancelledDonationCore s ev)

/-! ## Manual cancellation and webhook dispatch -/

/-- `ManualCancellationOptions` of `src/types.js`.  `cancelReason`
distinguishes an absent key (destructuring default `'manual'`) from an
explicit value, which may itself be `null`; `cancelledAt` is a
date-like value, `none` meaning absent (defaults to `new Date()`). -/
structure ManualCancellationOptions where
  tributeSubscriptionId : Option Int
  cancelReason : Option (Option String)
  cancelledAt : Option JsDate
  payload : Option CancelPayload
deriving DecidableEq, Repr

/-- `cancelSubscriptionLocally`: the trusted manual cancellation path
(`now` is the current time used for the `cancelledAt` default).  It
performs no duplicate/out-of-order check at all. -/
def cancelSubscriptionLocally (cfg : Config) (now : Int) (s : StoreState)
    (opts : ManualCancellationOptions) :
    StoreState × Except TributeError TributeEventResult :=
  match opts.tributeSubscriptionId with
  | none => (s, .error (.configurationError
      "tributeSubscriptionId is required to cancel subscription"))
  | some subId =>
    let tsE : Except TributeError Int :=
      match opts.cancelledAt with
      | none => .ok now
      | some .absent => .ok now
      | some (.invalid v) => .error (.configurationError
          ("Invalid \"cancelledAt\" timestamp: " ++ v))
      | some (.valid t) => .ok t
    match tsE with
    | .error e => (s, .error e)
    | .ok cancellationTimestamp =>
      let cancellation : CancellationRecord :=
        { cancelledAt := cancellationTimestamp
          cancelReason :=
            match opts.cancelReason with
            | none => some "manual"
            | some r => r
          payload := opts.payload }
      match markSubscriptionCancelled s (some subId) cancellation with
      | (s1, none) => (s1, .error .subscriptionNotFound)
      | (s1, some updated) =>
        let (s2, updated2) :=
          if updated.lastEventAt < cancellationTimestamp then
            let u := { updated with lastEventAt := cancellationTimestamp }
            let subs := mapSet s1.subscriptions (some subId) u
            ({ s1 with subscriptions := subs }, u)
          else (s1, updated)
        let context : SubContext :=
          { event := none
            intent := none
            intentStatus := none
            previousSubscription := none
            cancellation := some cancellation
            cancellationSource := some "manual" }
        let result := TributeEventResult.subscription .cancelled updated2 context
        match emitAndPublish cfg s2 result with
        | (s3, .ok _) => (s3, .ok result)
        | (s3, .error e) => (s3, .error e)

/-- Dispatch of `handleWebhook`: route an allow-listed event to its
handler core (unrecognized names fall through to `undefined`). -/
def processCore (plans : List Plan) (now : Int) (s : StoreState)
    (ev : Envelope) :
    StoreState × Except TributeError (Option TributeEventResult) :=
  if ev.name = "new_subscription" then handleNewSubscriptionCore plans now s ev
  else if ev.name = "cancelled_subscription" then handleCancelledSubscriptionCore plans s ev
  else if ev.name = "new_donation" then handleNewDonationCore s ev
  else if ev.name = "recurrent_donation" then handleRecurrentDonationCore s ev
  else if ev.name = "cancelled_donation" then handleCancelledDonationCore s ev
  else (s, .ok none)

/-- `handleWebhook`.  Raw-byte signature verification and JSON parsing
are abstracted at this level: `signatureValid` stands for the outcome
of `verifyTributeSignature(rawBody, header, apiKey, encoding)` and
`ev` for `JSON.parse(rawBody)` — identical raw bodies and headers
yield the identical `signatureValid` and `ev`.  The allow-list gate
drops events outside `allowedWebhookEvents` (and the dispatch drops
unrecognized names) by returning `undefined` without an error. -/
def handleWebhook (cfg : Config) (now : Int) (s : StoreState)
    (signatureValid : Bool) (ev : Envelope) :
    StoreState × Except TributeError (Option TributeEventResult) :=
  if ¬ signatureValid then (s, .error .signatureError)
  else if ¬ cfg.allowedWebhookEvents.contains ev.name then (s, .ok none)
  else finishEvent cfg (processCore cfg.plans now s ev)

/-! ## Map lemmas -/

theorem mapGet_mapSet_self [DecidableEq κ] (m : List (κ × ν)) (k : κ) (v : ν) :
    mapGet (mapSet m k v) k = some v := by
  induction m with
  | nil => simp [mapGet, mapSet]
  | cons h t ih =>
    obtain ⟨k', v'⟩ := h
    by_cases hk : k' = k <;> simp [mapGet, mapSet, hk, ih]

theorem mapGet_mapSet_ne [DecidableEq κ] (m : List (κ × ν)) (k k' : κ) (v : ν)
    (h : k ≠ k') : mapGet (mapSet m k v) k' = mapGet m k' := by
  induction m with
  | nil => simp [mapGet, mapSet, h]
  | cons hd t ih =>
    obtain ⟨k'', v''⟩ := hd
    by_cases hk : k'' = k
    · subst hk
      simp [mapGet, mapSet, h]
    · simp [mapGet, mapSet, hk, ih]

/-! ## Projection lemmas for the notification/publication tail -/

theorem emitAndPublish_fields (cfg : Config) (s : StoreState)
    (r : TributeEventResult) :
    (emitAndPublish cfg s r).1.subscriptions = s.subscriptions ∧
    (emitAndPublish cfg s r).1.donations = s.donations ∧
    (emitAndPublish cfg s r).1.payments = s.payments ∧
    (emitAndPublish cfg s r).1.intents = s.intents ∧
    (emitAndPublish cfg s r).1.emitted =
      s.emitted ++ (emissionNames r).map (fun n => (n, r)) := by
  unfold emitAndPublish
  cases publishEvent cfg <;> simp

theorem finishEvent_fields (cfg : Config)
    (out : StoreState × Except TributeError (Option TributeEventResult)) :
    (finishEvent cfg out).1.subscriptions = out.1.subscriptions ∧
    (finishEvent cfg out).1.donations = out.1.donations ∧
    (finishEvent cfg out).1.payments = out.1.payments ∧
    (finishEvent cfg out).1.intents = out.1.intents := by
  obtain ⟨s, res⟩ := out
  unfold finishEvent
  match res with
  | .error e => simp
  | .ok none => simp
  | .ok (some r) =>
    have h := emitAndPublish_fields cfg s r
    simp [h.1, h.2.1, h.2.2.1, h.2.2.2.1]

/-! ## C5 — configuration gate -/

/-- **C5**: for every envelope with a valid signature and parseable
body whose name is not in the configured allow-list (which covers
unrecognized event names as well), `handleWebhook` returns `undefined`,
raises no error and performs no store operation (the state is returned
unchanged). -/
theorem c5_configuration_gate (cfg : Config) (now : Int) (s : StoreState)
    (ev : Envelope)
    (h : cfg.allowedWebhookEvents.contains ev.name = false) :
    handleWebhook cfg now s true ev = (s, .ok none) := by
  unfold handleWebhook
  have h' : ev.name ∉ cfg.allowedWebhookEvents := by simpa using h
  simp [h']

/-- Witness for `c5_configuration_gate`: a donation event is dropped
unchanged when only `new_subscription` is allow-listed. -/
theorem c5_configuration_gate_witness :
    handleWebhook
      { plans := [], allowedWebhookEvents := ["new_subscription"],
        eventPublisher := none, eventPublisherFailureMode := .throw,
        intentTtlMs := 0 } 0 .empty true
      { name := "new_donation", created_at := .absent, sent_at := .absent,
        payload := Payload.empty } = (.empty, .ok none) :=
  c5_configuration_gate _ _ _ _ (by decide)

/-! ## C9 — signature verification outcomes -/

/-- **C9** (amended): for every digest function, body and non-empty
key, verification returns `false` (raising nothing) when the signature
header is absent or empty, and when the *decoded* digest and the
*decoded* header differ in byte length; when the secret key is missing
it fails with the plain JavaScript `Error` the verifier constructs
(not the library's `TributeConfigurationError`), rather than returning
a verification outcome. -/
theorem c9_signature_outcomes :
    (∀ hmac body key enc, key ≠ "" →
      verifyTributeSignatureWith hmac body none key enc = .ok false ∧
      verifyTributeSignatureWith hmac body (some "") key enc = .ok false) ∧
    (∀ hmac body key header enc, key ≠ "" → header ≠ "" →
      (decodeBuffer enc (encodeDigest enc (hmac body key))).length ≠
        (decodeBuffer enc header).length →
      verifyTributeSignatureWith hmac body (some header) key enc = .ok false) ∧
    (∀ hmac body header enc,
      verifyTributeSignatureWith hmac body header "" enc =
        .error (.jsError "Tribute API key is required for signature verification")) := by
  refine ⟨?_, ?_, ?_⟩
  · intro hmac body key enc h
    constructor <;> simp [verifyTributeSignatureWith, truthyStr, h]
  · intro hmac body key header enc hk hh hlen
    simp [verifyTributeSignatureWith, truthyStr, hk, hh, hlen]
  · intro hmac body header enc
    simp [verifyTributeSignatureWith]

/-- Witness for `c9_signature_outcomes`: concrete instances of the
empty-header and length-mismatch outcomes. -/
theorem c9_signature_outcomes_witness :
    verifyTributeSignatureWith hmacModel [] none "k" .hex = .ok false ∧
    verifyTributeSignatureWith hmacModel [] (some "zz") "k" .hex = .ok false :=
  ⟨(c9_signature_outcomes.1 hmacModel [] "k" .hex (by decide)).1,
   c9_signature_outcomes.2.1 hmacModel [] "k" "zz" .hex (by decide) (by decide)
     (by decide)⟩

/-- The hex-encoded digest for the empty body under key `"k"`
(64 characters). -/
def c9digest : String := encodeDigest .hex (hmacModel [] "k")

/-- A 65-character header: the digest plus one trailing character
(Node's hex decoder drops the incomplete pair). -/
def c9header : String := c9digest ++ "a"

/-- **C9** counterexample: the claim says verification returns `false`
whenever the encoded digest and the supplied header differ in length,
but a header one character longer than the 64-character hex digest
still verifies as `true`, because the source compares the lengths of
the *decoded* buffers and `Buffer.from(·, "hex")` drops the trailing
incomplete pair. -/
theorem c9_counterexample :
    c9digest.length ≠ c9header.length ∧
    verifyTributeSignature [] (some c9header) "k" .hex = .ok true := by
  constructor
  · decide
  · rfl

/-! ## C7 — plan resolution -/

/-- The plan-matching predicate exactly as the spec words it: each of
the optional matching fields is "either unset on the plan (wildcard)
or equal to the payload's corresponding field", with currency compared
case-insensitively and amount compared against the payload's amount
falling back to its price. -/
def specPlanMatches (plan : Plan) (payload : Payload) : Bool :=
  (plan.tributeSubscriptionId == none ||
    payload.subscription_id == plan.tributeSubscriptionId) &&
  (plan.tributePeriodId == none ||
    payload.period_id == plan.tributePeriodId) &&
  (plan.price == none || payload.price == plan.price) &&
  (plan.currency == none ||
    (payload.currency).map jsToLower == (plan.currency).map jsToLower) &&
  (plan.period == "" || payload.period == some plan.period) &&
  (plan.amount == none || (payload.amount <|> payload.price) == plan.amount)

/-- The matching predicate the source actually implements, in the
amended claim's wording: plan-set fields must equal the payload's,
except that the period clause is also a wildcard when the *payload*
carries no (truthy) period, the payload currency is compared as the
empty string when absent, and a plan amount matches when it equals
either the payload's amount or the payload's price (not a fallback). -/
def amendedPlanMatches (plan : Plan) (payload : Payload) : Bool :=
  (plan.tributeSubscriptionId == none ||
    payload.subscription_id == plan.tributeSubscriptionId) &&
  (plan.tributePeriodId == none ||
    payload.period_id == plan.tributePeriodId) &&
  (plan.price == none || payload.price == plan.price) &&
  (plan.currency == none ||
    (plan.currency).map jsToLower ==
      some (jsToLower ((payload.currency).getD ""))) &&
  (plan.period == "" || payload.period == none || payload.period == some "" ||
    payload.period == some plan.period) &&
  (plan.amount == none || payload.amount == plan.amount ||
    payload.price == plan.amount)

theorem listFindCongr {α : Type} (f g : α → Bool) (h : ∀ a, f a = g a) :
    ∀ l : List α, l.find? f = l.find? g := by
  intro l
  induction l with
  | nil => rfl
  | cons a t ih => simp [List.find?, h a, ih]

theorem planMatches_eq_amended (plan : Plan) (payload : Payload) :
    planMatches plan payload = amendedPlanMatches plan payload := by
  have e1 : (match plan.tributeSubscriptionId with
      | none => true
      | some v => payload.subscription_id == some v) =
      (plan.tributeSubscriptionId == none ||
        payload.subscription_id == plan.tributeSubscriptionId) := by
    cases plan.tributeSubscriptionId <;> simp
  have e2 : (match plan.tributePeriodId with
      | none => true
      | some v => payload.period_id == some v) =
      (plan.tributePeriodId == none ||
        payload.period_id == plan.tributePeriodId) := by
    cases plan.tributePeriodId <;> simp
  have e3 : (match plan.price with
      | none => true
      | some v => payload.price == some v) =
      (plan.price == none || payload.price == plan.price) := by
    cases plan.price <;> simp
  have e4 : (match plan.currency with
      | none => true
      | some c => jsToLower c == jsToLower ((payload.currency).getD "")) =
      (plan.currency == none ||
        (plan.currency).map jsToLower ==
          some (jsToLower ((payload.currency).getD ""))) := by
    cases plan.currency <;> simp
  have e5 : (if plan.period ≠ "" ∧ truthyStr payload.period then
        payload.period == some plan.period
      else true) =
      (plan.period == "" || payload.period == none ||
        payload.period == some "" || payload.period == some plan.period) := by
    by_cases hp : plan.period = ""
    · simp [hp]
    · cases hpd : payload.period with
      | none => simp [hp, truthyStr]
      | some sp =>
        by_cases hsp : sp = "" <;>
          simp [hp, truthyStr, hsp, beq_iff_eq]
  have e6 : (match plan.amount with
      | none => true
      | some a => payload.amount == some a || payload.price == some a) =
      (plan.amount == none || payload.amount == plan.amount ||
        payload.price == plan.amount) := by
    cases plan.amount <;> simp
  unfold planMatches amendedPlanMatches
  rw [e1, e2, e3, e4, e5, e6]

/-- A plan whose only set matchers are amount, currency and the
(required) period field. -/
def c7plan : Plan where
  id := "m10"
  title := "Monthly"
  amount := some 1000
  currency := some "eur"
  period := "monthly"
  subscriptionLink := "link"
  tributeSubscriptionId := none
  tributePeriodId := none
  price := none
  metadata := none

/-- A payload matching `c7plan` on amount and currency but carrying no
period at all. -/
def c7payload : Payload :=
  { Payload.empty with amount := some 1000, currency := some "eur" }

/-- **C7** counterexample: the claim's predicate requires the plan's
period to be unset or *equal to the payload's corresponding field*,
so a payload lacking a period should match no plan with a set period —
but the source treats a missing payload period as a wildcard and
resolves the plan. -/
theorem c7_counterexample :
    findPlanForPayload [c7plan] c7payload = some c7plan ∧
    specPlanMatches c7plan c7payload = false := by
  constructor
  · decide
  · decide

/-- **C7** (amended): the resolved plan is the first configured plan
matching the payload under the source's predicate — wildcarding the
period clause also when the payload carries no truthy period,
comparing an absent payload currency as the empty string, and
accepting a set plan amount equal to either the payload's amount or
its price; when no plan matches, `#handleNewSubscription` fails with
`PlanNotFoundError` carrying the best-available identifying payload
field. -/
theorem c7_plan_resolution :
    (∀ plans payload,
      findPlanForPayload plans payload =
        plans.find? (fun p => amendedPlanMatches p payload)) ∧
    (∀ plans now s ev,
      findPlanForPayload plans ev.payload = none →
      handleNewSubscriptionCore plans now s ev =
        (s, .error (.planNotFound (bestPlanId ev.payload)))) := by
  constructor
  · intro plans payload
    unfold findPlanForPayload
    exact listFindCongr _ _ (fun p => planMatches_eq_amended p payload) plans
  · intro plans now s ev h
    unfold handleNewSubscriptionCore
    simp [h]

/-- Witness for `c7_plan_resolution`: an empty catalog resolves no
plan and the handler fails with `PlanNotFoundError "undefined"`. -/
theorem c7_plan_resolution_witness :
    handleNewSubscriptionCore [] 0 .empty
      { name := "new_subscription", created_at := .absent,
        sent_at := .absent, payload := Payload.empty } =
      (.empty, .error (.planNotFound "undefined")) :=
  c7_plan_resolution.2 [] 0 .empty _ rfl

/-! ## C8 — cancelled donations are never reactivated by a recurrence -/

/-- **C8**: every `recurrent_donation` event that passes the
duplicate/out-of-order check against a stored donation whose status is
`cancelled` upserts a record that keeps status `cancelled` and
preserves the stored `cancelledAt`; the recurrence never reactivates
the donation to `active`. -/
theorem c8_cancelled_donation_preserved (cfg : Config) (s : StoreState)
    (ev : Envelope) (id : Int) (d : StoredDonation) (ts : Int)
    (hid : ev.payload.donation_request_id = some id)
    (htg : (ev.payload.telegram_user_id).isSome = true)
    (hex : mapGet s.donations id = some d)
    (hst : d.status = .cancelled)
    (hts : getEventTimestamp ev = .ok ts)
    (hdup : d.lastEventAt < ts) :
    (mapGet (handleRecurrentDonation cfg s ev).1.donations id).map (·.status)
        = some .cancelled ∧
    (mapGet (handleRecurrentDonation cfg s ev).1.donations id).map (·.cancelledAt)
        = some d.cancelledAt := by
  obtain ⟨tg, htg'⟩ := Option.isSome_iff_exists.mp htg
  have hfe := (finishEvent_fields cfg (handleRecurrentDonationCore s ev)).2.1
  unfold handleRecurrentDonation
  rw [hfe]
  have hg : isOutdatedEvent (some d.lastEventAt) ts = false := by
    simp [isOutdatedEvent, not_le.mpr hdup]
  unfold handleRecurrentDonationCore
  simp [hid, htg', hex, hts, hg, upsertDonation, recordPayment,
    mapGet_mapSet_self, hst]

/-- A minimal configuration with an empty catalog and no publisher. -/
def cfgBare : Config where
  plans := []
  allowedWebhookEvents := []
  eventPublisher := none
  eventPublisherFailureMode := .throw
  intentTtlMs := 0

/-- A cancelled stored donation used by the C8 witness. -/
def c8donation : StoredDonation where
  donationRequestId := 7
  donationName := ""
  telegramUserId := some 9
  userId := none
  period := "monthly"
  amount := 5
  currency := "eur"
  anonymously := false
  message := none
  webAppLink := none
  status := .cancelled
  createdAt := 10
  lastEventAt := 50
  cancelledAt := some 40
  metadata := []

/-- Store holding only `c8donation`. -/
def c8state : StoreState :=
  { StoreState.empty with donations := [(7, c8donation)] }

/-- A recurrence for the cancelled donation, newer than its watermark. -/
def c8event : Envelope where
  name := "recurrent_donation"
  created_at := .valid 100
  sent_at := .valid 100
  payload :=
    { Payload.empty with donation_request_id := some 7, telegram_user_id := some 9 }

/-- Witness for `c8_cancelled_donation_preserved`: a cancelled donation
stays cancelled across an accepted recurrence. -/
theorem c8_cancelled_donation_preserved_witness :
    (mapGet (handleRecurrentDonation cfgBare c8state c8event).1.donations 7).map
        (·.status) = some .cancelled ∧
    (mapGet (handleRecurrentDonation cfgBare c8state c8event).1.donations 7).map
        (·.cancelledAt) = some (some 40) :=
  c8_cancelled_donation_preserved cfgBare c8state c8event 7 c8donation 100
    rfl rfl rfl rfl rfl (by decide)

/-! ## C4 — expired-intent completion -/

/-- The outcome C4 requires of a webhook call: a `created` subscription
result whose record is `active`, whose context carries
`intentStatus = expired`, and whose record is the one persisted for
the provider id. -/
def CreatedActiveExpired
    (out : StoreState × Except TributeError (Option TributeEventResult))
    (k : Option Int) : Prop :=
  match out.2 with
  | .ok (some (.subscription ty rec ctx)) =>
    ty = .created ∧ rec.status = .active ∧
    ctx.intentStatus = some .expired ∧
    mapGet out.1.subscriptions k = some rec
  | _ => False

/-- **C4**: a first-time `new_subscription` event (no stored
subscription for its provider id) whose intent, found by `intent_id`,
expired before the event's ordering timestamp still succeeds: the
subscription is persisted with status `active`, and the result's
context carries `intentStatus = expired` instead of `matched`. -/
theorem c4_expired_intent_completes (cfg : Config) (now : Int)
    (s : StoreState) (ev : Envelope) (plan : Plan) (ts ca : Int)
    (iid : String) (intent : Intent) (exAt : Option Int)
    (hplan : findPlanForPayload cfg.plans ev.payload = some plan)
    (hts : getEventTimestamp ev = .ok ts)
    (hca : getEventCreatedAt ev = .ok ca)
    (hsub : truthyInt ev.payload.subscription_id = true)
    (hfresh : mapGet s.subscriptions ev.payload.subscription_id = none)
    (hiid : ev.payload.intent_id = some iid)
    (hne : iid ≠ "")
    (hfound : mapGet s.intents iid = some intent)
    (hexpired : intent.expiresAt < ts)
    (hexpE : (if truthyDate ev.payload.expires_at then
        (parseDate ev.payload.expires_at "payload.expires_at").map some
      else Except.ok none) = .ok exAt)
    (hpub : publishEvent cfg = .ok ()) :
    CreatedActiveExpired (handleNewSubscription cfg now s ev)
      ev.payload.subscription_id := by
  unfold handleNewSubscription handleNewSubscriptionCore resolveIntent
    CreatedActiveExpired
  simp only [Except.map] at hexpE
  simp [hplan, hts, hca, hsub, hfresh, hiid, hexpE, hne, hfound, hexpired,
    truthyStr, consumeIntent, evaluateIntent, upsertSubscription,
    recordPayment, finishEvent, emitAndPublish, hpub, mapGet_mapSet_self,
    Except.map]

/-- An intent that expires at time 30, long before the event at 100. -/
def c4intent : Intent where
  id := "i1"
  planId := "m10"
  telegramUserId := 123456
  createdAt := 0
  expiresAt := 30
  metadata := []

/-- Configuration carrying only `c7plan`. -/
def c4cfg : Config := { cfgBare with plans := [c7plan] }

/-- Store holding only the expired intent. -/
def c4state : StoreState :=
  { StoreState.empty with intents := [("i1", c4intent)] }

/-- A first-time subscription event completing the expired intent. -/
def c4event : Envelope where
  name := "new_subscription"
  created_at := .valid 100
  sent_at := .valid 100
  payload := { c7payload with
               subscription_id := some 5
               intent_id := some "i1"
               telegram_user_id := some 123456 }

/-- Witness for `c4_expired_intent_completes`. -/
theorem c4_expired_intent_completes_witness :
    CreatedActiveExpired (handleNewSubscription c4cfg 0 c4state c4event)
      (some 5) :=
  c4_expired_intent_completes c4cfg 0 c4state c4event c7plan 100 100 "i1"
    c4intent none (by decide) rfl rfl (by decide) rfl rfl (by decide)
    (by decide) (by decide) rfl rfl

/-! ## C3 — ledger timestamp -/

/-- An active stored donation created (and last seen) at time 300. -/
def c3donation : StoredDonation where
  donationRequestId := 7
  donationName := ""
  telegramUserId := some 9
  userId := none
  period := "monthly"
  amount := 5
  currency := "eur"
  anonymously := false
  message := none
  webAppLink := none
  status := .active
  createdAt := 300
  lastEventAt := 300
  cancelledAt := none
  metadata := []

/-- Store holding only `c3donation`. -/
def c3state : StoreState :=
  { StoreState.empty with donations := [(7, c3donation)] }

/-- An accepted recurrence of donation 7, originated at time 400. -/
def c3event : Envelope where
  name := "recurrent_donation"
  created_at := .valid 400
  sent_at := .valid 400
  payload :=
    { Payload.empty with donation_request_id := some 7, telegram_user_id := some 9 }

/-- **C3** failing input: an accepted `recurrent_donation` whose
envelope originated at `created_at = 400` against a donation stored
with `createdAt = 300` appends a ledger entry with `paidAt = 300` —
the timestamp taken from the previously stored record, not the event's
`created_at` (the handler reuses `existing?.createdAt ?? created_at`
for both the record's `createdAt` and the payment's `paidAt`). -/
theorem c3_paidAt_uses_stored_createdAt :
    getEventCreatedAt c3event = .ok 400 ∧
    (handleRecurrentDonation cfgBare c3state c3event).1.payments.map (·.paidAt)
      = [300] := by
  constructor
  · rfl
  · decide

/-! ## C6 — publisher failure policy -/

/-- Replace a configuration's external-publisher settings. -/
def withPublisher (cfg : Config) (p : Option Bool)
    (m : PublisherFailureMode) : Config :=
  { cfg with eventPublisher := p, eventPublisherFailureMode := m }

/-- **C6**: when the same webhook call would succeed with no external
publisher configured, then with a publisher that raises: in `throw`
mode (the default) the error propagates out of the whole
webhook-handling call while the store state — entity write, ledger
append and local notifications — is exactly the successful run's state
(no rollback, listeners already notified); in `log` mode the error is
swallowed and the call returns the result normally. -/
theorem c6_publisher_failure_policy (cfg : Config) (now : Int)
    (s : StoreState) (ev : Envelope) (s' : StoreState)
    (r : TributeEventResult) (m0 : PublisherFailureMode)
    (h : handleWebhook (withPublisher cfg none m0) now s true ev =
      (s', .ok (some r))) :
    handleWebhook (withPublisher cfg (some true) .throw) now s true ev =
      (s', .error .publisherError) ∧
    handleWebhook (withPublisher cfg (some true) .log) now s true ev =
      (s', .ok (some r)) ∧
    ("event", r) ∈ s'.emitted := by
  unfold handleWebhook withPublisher at h ⊢
  by_cases hc : cfg.allowedWebhookEvents.contains ev.name
  · simp only [hc] at h ⊢
    rcases hpc : processCore cfg.plans now s ev with ⟨sc, rc⟩
    simp only [hpc] at h ⊢
    cases rc with
    | error e => simp [finishEvent] at h
    | ok o =>
      cases o with
      | none => simp [finishEvent] at h
      | some r0 =>
        simp only [finishEvent, emitAndPublish, publishEvent] at h ⊢
        simp at h
        obtain ⟨hs, hr⟩ := h
        subst hr
        subst hs
        refine ⟨by simp, by simp, ?_⟩
        rcases r0 with _ | _ <;> simp [emissionNames]
  · simp only [hc] at h
    simp at h

/-- Configuration allowing only donation creations. -/
def c6cfg : Config := { cfgBare with allowedWebhookEvents := ["new_donation"] }

/-- A fresh donation event for the C6 witness. -/
def c6event : Envelope where
  name := "new_donation"
  created_at := .valid 100
  sent_at := .valid 100
  payload :=
    { Payload.empty with donation_request_id := some 7, telegram_user_id := some 9 }

/-- The donation record `c6event` creates on an empty store. -/
def c6donation : StoredDonation where
  donationRequestId := 7
  donationName := ""
  telegramUserId := some 9
  userId := none
  period := "once"
  amount := 0
  currency := ""
  anonymously := false
  message := none
  webAppLink := none
  status := .completed
  createdAt := 100
  lastEventAt := 100
  cancelledAt := none
  metadata := []

/-- The result `c6event` produces on an empty store. -/
def c6result : TributeEventResult :=
  .donation .created c6donation { event := some c6event, cancellation := none }

/-- The store state after the successful run with no publisher. -/
def c6stateAfter : StoreState :=
  (handleWebhook (withPublisher c6cfg none .throw) 0 .empty true c6event).1

/-- Witness for `c6_publisher_failure_policy`. -/
theorem c6_publisher_failure_policy_witness :
    handleWebhook (withPublisher c6cfg (some true) .throw) 0 .empty true c6event =
      (c6stateAfter, .error .publisherError) ∧
    handleWebhook (withPublisher c6cfg (some true) .log) 0 .empty true c6event =
      (c6stateAfter, .ok (some c6result)) ∧
    ("event", c6result) ∈ c6stateAfter.emitted :=
  c6_publisher_failure_policy c6cfg 0 .empty c6event c6stateAfter c6result
    .throw (by decide)

/-! ## C10 — events without a `subscription_id` bypass the
duplicate/out-of-order suppression -/

/-- The subscription-result type of a webhook outcome, when any. -/
def ResultSubType
    (out : StoreState × Except TributeError (Option TributeEventResult)) :
    Option SubType :=
  match out.2 with
  | .ok (some (.subscription ty _ _)) => some ty
  | _ => none

/-- The outcome C10 (amended) requires: a subscription result of the
expected type with the expected ledger length. -/
def AcceptedSubscription
    (out : StoreState × Except TributeError (Option TributeEventResult))
    (expectedType : SubType) (nPayments : Nat) : Prop :=
  match out.2 with
  | .ok (some (.subscription ty _ _)) =>
    ty = expectedType ∧ out.1.payments.length = nPayments
  | _ => False

/-- Configuration for the C10 scenario: one plan, subscriptions allowed,
no publisher. -/
def c10cfg : Config :=
  { cfgBare with
    plans := [c7plan]
    allowedWebhookEvents := ["new_subscription"] }

/-- Two long-lived intents for the same user and plan. -/
def c10intent1 : Intent where
  id := "i1"
  planId := "m10"
  telegramUserId := 123456
  createdAt := 0
  expiresAt := 1000000
  metadata := []

def c10intent2 : Intent :=
  { c10intent1 with id := "i2" }

/-- Store holding the two intents. -/
def c10state0 : StoreState :=
  { StoreState.empty with intents := [("i1", c10intent1), ("i2", c10intent2)] }

/-- First id-less subscription event, at time 100. -/
def c10event1 : Envelope where
  name := "new_subscription"
  created_at := .valid 100
  sent_at := .valid 100
  payload := { c7payload with
               intent_id := some "i1"
               telegram_user_id := some 123456 }

/-- Second id-less subscription event, dated *earlier* (time 50). -/
def c10event2 : Envelope where
  name := "new_subscription"
  created_at := .valid 50
  sent_at := .valid 50
  payload := { c7payload with
               intent_id := some "i2"
               telegram_user_id := some 123456 }

/-- State after processing the first id-less event. -/
def c10state1 : StoreState :=
  (handleWebhook c10cfg 0 c10state0 true c10event1).1

/-- **C10** counterexample: the second id-less delivery (older
timestamp, consumable intent, valid signature) is indeed accepted and
ledgered, but it is reported as `renewed` — not as the fresh `created`
subscription the claim states — because the store's upsert finds the
previous record under the missing-id key. -/
theorem c10_counterexample :
    truthyInt c10event2.payload.subscription_id = false ∧
    ResultSubType (handleWebhook c10cfg 0 c10state1 true c10event2) =
      some .renewed := by
  constructor
  · decide
  · decide

/-- **C10** (amended): a `new_subscription` event whose payload lacks a
truthy `subscription_id` never loads a stored subscription, so the
duplicate/out-of-order suppression is bypassed entirely — every such
delivery with a valid signature that finds a consumable intent (by
`intent_id`) is accepted and appends a new ledger entry regardless of
how its timestamps compare to previously processed events; it is
reported as `created` only when the store holds no record under the
missing-id key (a previous id-less event leaves one, making later
deliveries `renewed`). -/
theorem c10_missing_id_bypasses_suppression (cfg : Config) (now : Int)
    (s : StoreState) (ev : Envelope) (plan : Plan) (ts ca : Int)
    (iid : String) (intent : Intent) (exAt : Option Int)
    (hname : ev.name = "new_subscription")
    (hallow : cfg.allowedWebhookEvents.contains ev.name = true)
    (hsub : truthyInt ev.payload.subscription_id = false)
    (hplan : findPlanForPayload cfg.plans ev.payload = some plan)
    (hts : getEventTimestamp ev = .ok ts)
    (hca : getEventCreatedAt ev = .ok ca)
    (hiid : ev.payload.intent_id = some iid)
    (hne : iid ≠ "")
    (hfound : mapGet s.intents iid = some intent)
    (hexpE : (if truthyDate ev.payload.expires_at then
        (parseDate ev.payload.expires_at "payload.expires_at").map some
      else Except.ok none) = .ok exAt)
    (hpub : publishEvent cfg = .ok ()) :
    AcceptedSubscription (handleWebhook cfg now s true ev)
      (if (mapGet s.subscriptions ev.payload.subscription_id).isSome
        then .renewed else .created)
      (s.payments.length + 1) := by
  unfold handleWebhook processCore handleNewSubscriptionCore resolveIntent
    AcceptedSubscription
  simp only [Except.map] at hexpE
  simp only [hname] at hallow
  have hallow' : "new_subscription" ∈ cfg.allowedWebhookEvents := by
    simpa using hallow
  simp only [hname, hallow']
  simp [hplan, hts, hca, hsub, hiid, hexpE, hne, hfound, truthyStr,
    consumeIntent, evaluateIntent, upsertSubscription, recordPayment,
    finishEvent, emitAndPublish, hpub, Except.map, hallow']

/-! ## C1 — idempotence of webhook delivery -/

/-- Number of notifications with a given event name in the emission
log. -/
def countEmit (s : StoreState) (name : String) : Nat :=
  (s.emitted.filter (fun e => e.1 == name)).length

/-- A store differs from `s` at most in its intents. -/
def OnlyIntentsDiffer (s' s : StoreState) : Prop :=
  s'.subscriptions = s.subscriptions ∧ s'.payments = s.payments ∧
  s'.donations = s.donations ∧ s'.emitted = s.emitted

theorem onlyIntentsDiffer_refl (s : StoreState) : OnlyIntentsDiffer s s :=
  ⟨rfl, rfl, rfl, rfl⟩

theorem onlyIntentsDiffer_trans {a b c : StoreState}
    (h1 : OnlyIntentsDiffer a b) (h2 : OnlyIntentsDiffer b c) :
    OnlyIntentsDiffer a c := by
  obtain ⟨x1, x2, x3, x4⟩ := h1
  obtain ⟨y1, y2, y3, y4⟩ := h2
  exact ⟨x1.trans y1, x2.trans y2, x3.trans y3, x4.trans y4⟩

theorem consumeIntent_fields (s : StoreState) (i : String) :
    OnlyIntentsDiffer (consumeIntent s i).1 s := by
  simp [consumeIntent, OnlyIntentsDiffer]

theorem consumeIntentByTelegramAndPlan_fields (now : Int) (s : StoreState)
    (tg : Int) (pid : String) :
    OnlyIntentsDiffer (consumeIntentByTelegramAndPlan now s tg pid).1 s := by
  unfold consumeIntentByTelegramAndPlan
  rcases h : consumeIntentByTgAux now tg pid s.intents with ⟨l, r⟩
  simp [h, OnlyIntentsDiffer]

/-- `resolveIntent` touches only the intents of the store. -/
theorem resolveIntent_fields (now : Int) (s : StoreState) (plan : Plan)
    (payload : Payload) (ts : Int) :
    OnlyIntentsDiffer (resolveIntent now s plan payload ts).1 s := by
  unfold resolveIntent
  rcases h1 : (if truthyStr (payload.intent_id <|> payload.metadata_intent_id)
      then consumeIntent s
        ((payload.intent_id <|> payload.metadata_intent_id).getD "")
      else (s, none)) with ⟨sa, ia⟩
  have ha : OnlyIntentsDiffer sa s := by
    by_cases hb : truthyStr (payload.intent_id <|> payload.metadata_intent_id)
    · rw [if_pos hb] at h1
      have hcf := consumeIntent_fields s
        ((payload.intent_id <|> payload.metadata_intent_id).getD "")
      rw [h1] at hcf
      exact hcf
    · rw [if_neg hb] at h1
      cases h1
      exact onlyIntentsDiffer_refl s
  simp only [h1]
  rcases h2 : (match ia, payload.telegram_user_id with
      | none, some tg => consumeIntentByTelegramAndPlan now sa tg plan.id
      | _, _ => (sa, ia)) with ⟨sb, ib⟩
  have hab : OnlyIntentsDiffer sb sa := by
    rcases ia with _ | i
    · rcases htg : payload.telegram_user_id with _ | tg
      · simp only [htg] at h2
        cases h2
        exact onlyIntentsDiffer_refl sa
      · simp only [htg] at h2
        have hcf := consumeIntentByTelegramAndPlan_fields now sa tg plan.id
        rw [h2] at hcf
        exact hcf
    · simp only [] at h2
      cases h2
      exact onlyIntentsDiffer_refl sa
  have hsb : OnlyIntentsDiffer sb s := onlyIntentsDiffer_trans hab ha
  simp only [h2]
  cases ib <;> simpa using hsb

/-- **C1**: for every `new_subscription` envelope whose payload
carries a (truthy) `subscription_id` and for which no subscription is
yet stored, a first delivery that succeeds appends exactly one ledger
entry and emits exactly one `subscription.created` notification, and
processing the identical envelope (same parsed body, valid signature)
a second time returns `undefined`, appends nothing, emits nothing and
leaves the whole store unchanged. -/
theorem c1_idempotent_delivery (cfg : Config) (now : Int) (s : StoreState)
    (ev : Envelope) (s1 : StoreState) (r : TributeEventResult)
    (hn : ev.name = "new_subscription")
    (hsub : truthyInt ev.payload.subscription_id = true)
    (hfresh : mapGet s.subscriptions ev.payload.subscription_id = none)
    (h : handleWebhook cfg now s true ev = (s1, .ok (some r))) :
    s1.payments.length = s.payments.length + 1 ∧
    countEmit s1 "subscription.created" =
      countEmit s "subscription.created" + 1 ∧
    ∀ now2, handleWebhook cfg now2 s1 true ev = (s1, .ok none) := by
  unfold handleWebhook processCore at h
  simp only [hn] at h
  by_cases hc : "new_subscription" ∈ cfg.allowedWebhookEvents
  case neg => simp [hc] at h
  simp [hc] at h
  unfold handleNewSubscriptionCore at h
  cases hplan : findPlanForPayload cfg.plans ev.payload with
  | none => simp only [hplan] at h; simp [finishEvent] at h
  | some plan =>
  simp only [hplan] at h
  cases hts : getEventTimestamp ev with
  | error e => simp only [hts] at h; simp [finishEvent] at h
  | ok ts =>
  simp only [hts] at h
  cases hca : getEventCreatedAt ev with
  | error e => simp only [hca] at h; simp [finishEvent] at h
  | ok ca =>
  simp only [hca] at h
  simp only [hsub, if_true, hfresh] at h
  rcases hri : resolveIntent now s plan ev.payload ts with ⟨si, ri⟩
  simp only [hri] at h
  cases ri with
  | error e => simp [finishEvent, Except.map] at h
  | ok ip =>
  obtain ⟨intent, ist⟩ := ip
  have hsi := resolveIntent_fields now s plan ev.payload ts
  rw [hri] at hsi
  dsimp only at hsi
  obtain ⟨hsubs, hpay, hdon, hemit⟩ := hsi
  have hmap : Except.map some (Except.ok (intent, ist)) =
      (Except.ok (some (intent, ist)) :
        Except TributeError (Option (Intent × IntentStatus))) := rfl
  simp only [hmap, Option.none_bind] at h
  cases hexp : (if truthyDate ev.payload.expires_at = true then
      Except.map some (parseDate ev.payload.expires_at "payload.expires_at")
    else Except.ok (none : Option Int)) with
  | error e => simp only [hexp] at h; simp [finishEvent] at h
  | ok exAt =>
  rw [hexp] at h
  simp only [upsertSubscription, recordPayment, hsubs, hfresh,
    Option.isSome_none, Bool.false_eq_true, if_false] at h
  cases hpub : publishEvent cfg with
  | error e =>
    simp only [finishEvent, emitAndPublish, hpub] at h
    simp at h
  | ok u =>
  simp only [finishEvent, emitAndPublish, hpub] at h
  simp only [Prod.mk.injEq, Except.ok.injEq, Option.some.injEq] at h
  obtain ⟨hS, hR⟩ := h
  subst hS
  refine ⟨?_, ?_, ?_⟩
  · simp [hpay]
  · simp [countEmit, List.filter_append, hemit, emissionNames, SubType.str]
  · intro now2
    unfold handleWebhook processCore handleNewSubscriptionCore
    simp only [hn]
    simp only [hplan, hts, hca, hsub, if_true, mapGet_mapSet_self]
    simp [finishEvent, isOutdatedEvent, mapGet_mapSet_self, hc]

/-- First delivery of `c4event` (which also completes an expired
intent) through the full webhook pipeline. -/
def c1run : StoreState × Except TributeError (Option TributeEventResult) :=
  handleWebhook c10cfg 0 c4state true c4event

/-- The subscription record `c4event` creates. -/
def c1record : StoredSubscription where
  planId := "m10"
  tributeSubscriptionId := some 5
  tributePeriodId := none
  telegramUserId := some 123456
  userId := none
  amount := some 1000
  currency := some "eur"
  period := some "monthly"
  status := .active
  createdAt := 100
  lastEventAt := 100
  expiresAt := none
  cancelledAt := none
  cancelReason := none
  metadata := []

/-- The result of the first delivery of `c4event`. -/
def c1result : TributeEventResult :=
  .subscription .created c1record
    { event := some c4event
      intent := some c4intent
      intentStatus := some .expired
      previousSubscription := none
      cancellation := none
      cancellationSource := none }

/-- Witness for `c1_idempotent_delivery`, with the second call
instantiated at a different `Date.now()`. -/
theorem c1_idempotent_delivery_witness :
    c1run.1.payments.length = c4state.payments.length + 1 ∧
    countEmit c1run.1 "subscription.created" =
      countEmit c4state "subscription.created" + 1 ∧
    handleWebhook c10cfg 7 c1run.1 true c4event = (c1run.1, .ok none) :=
  have h := c1_idempotent_delivery c10cfg 0 c4state c4event c1run.1 c1result
    rfl (by decide) rfl (by decide)
  ⟨h.1, h.2.1, h.2.2 7⟩

/-- Witness for `c10_missing_id_bypasses_suppression`: the second
id-less delivery of the counterexample scenario, accepted with an
older timestamp and reported `renewed`. -/
theorem c10_missing_id_bypasses_suppression_witness :
    AcceptedSubscription (handleWebhook c10cfg 0 c10state1 true c10event2)
      (if (mapGet c10state1.subscriptions
            c10event2.payload.subscription_id).isSome
        then .renewed else .created)
      (c10state1.payments.length + 1) :=
  c10_missing_id_bypasses_suppression c10cfg 0 c10state1 c10event2 c7plan
    50 50 "i2" c10intent2 none rfl (by decide) rfl (by decide) rfl rfl rfl
    (by decide) (by decide) rfl rfl

/-! ## C2 — `lastEventAt` monotonicity -/

/-- An active subscription last touched at time 100. -/
def c2sub : StoredSubscription where
  planId := "m10"
  tributeSubscriptionId := some 1
  tributePeriodId := none
  telegramUserId := some 9
  userId := none
  amount := some 1000
  currency := some "eur"
  period := some "monthly"
  status := .active
  createdAt := 10
  lastEventAt := 100
  expiresAt := none
  cancelledAt := none
  cancelReason := none
  metadata := []

/-- Store holding only `c2sub`. -/
def c2state : StoreState :=
  { StoreState.empty with subscriptions := [(some 1, c2sub)] }

/-- A manual cancellation back-dated to time 50. -/
def c2opts : ManualCancellationOptions where
  tributeSubscriptionId := some 1
  cancelReason := none
  cancelledAt := some (.valid 50)
  payload := none

/-- **C2** counterexample: the claim includes the manual cancellation
path, but `cancelSubscriptionLocally` performs no duplicate or
ordering check at all — a back-dated manual cancellation *lowers* the
stored `lastEventAt` from 100 to 50. -/
theorem c2_counterexample :
    (mapGet c2state.subscriptions (some 1)).map (·.lastEventAt) = some 100 ∧
    (mapGet (cancelSubscriptionLocally cfgBare 999 c2state c2opts).1.subscriptions
        (some 1)).map (·.lastEventAt) = some 50 := by
  constructor
  · decide
  · decide

/-- `mapSet` at a key overrides an earlier `mapSet` at the same key. -/
theorem mapSet_mapSet_self [DecidableEq κ] (m : List (κ × ν)) (k : κ)
    (v v' : ν) : mapSet (mapSet m k v) k v' = mapSet m k v' := by
  induction m with
  | nil => simp [mapSet]
  | cons hd t ih =>
    obtain ⟨k'', v''⟩ := hd
    by_cases hk : k'' = k <;> simp [mapSet, hk, ih]

/-- The C2 step property for subscriptions: a record stored under a
truthy provider id is either untouched or has its watermark strictly
raised. -/
def SubsMonoStep (s s' : StoreState) : Prop :=
  ∀ k a b, truthyInt k = true → mapGet s.subscriptions k = some a →
    mapGet s'.subscriptions k = some b → a = b ∨ a.lastEventAt < b.lastEventAt

/-- The C2 step property for donations. -/
def DonsMonoStep (s s' : StoreState) : Prop :=
  ∀ k a b, mapGet s.donations k = some a →
    mapGet s'.donations k = some b → a = b ∨ a.lastEventAt < b.lastEventAt

theorem subsMonoStep_of_eq {s s' : StoreState}
    (h : s'.subscriptions = s.subscriptions) : SubsMonoStep s s' := by
  intro k a b _ ha hb
  rw [h, ha] at hb
  exact Or.inl (Option.some.inj hb)

theorem donsMonoStep_of_eq {s s' : StoreState}
    (h : s'.donations = s.donations) : DonsMonoStep s s' := by
  intro k a b ha hb
  rw [h, ha] at hb
  exact Or.inl (Option.some.inj hb)

theorem subsMonoStep_of_set {s s' : StoreState} {k0 : Option Int}
    {v : StoredSubscription}
    (h : s'.subscriptions = mapSet s.subscriptions k0 v)
    (hstrict : truthyInt k0 = true → ∀ a,
      mapGet s.subscriptions k0 = some a → a.lastEventAt < v.lastEventAt) :
    SubsMonoStep s s' := by
  intro k a b htr ha hb
  rw [h] at hb
  by_cases hk : k0 = k
  · subst hk
    rw [mapGet_mapSet_self] at hb
    cases hb
    exact Or.inr (hstrict htr a ha)
  · rw [mapGet_mapSet_ne _ _ _ _ hk, ha] at hb
    exact Or.inl (Option.some.inj hb)

theorem donsMonoStep_of_set {s s' : StoreState} {k0 : Int}
    {v : StoredDonation}
    (h : s'.donations = mapSet s.donations k0 v)
    (hstrict : ∀ a, mapGet s.donations k0 = some a →
      a.lastEventAt < v.lastEventAt) :
    DonsMonoStep s s' := by
  intro k a b ha hb
  rw [h] at hb
  by_cases hk : k0 = k
  · subst hk
    rw [mapGet_mapSet_self] at hb
    cases hb
    exact Or.inr (hstrict a ha)
  · rw [mapGet_mapSet_ne _ _ _ _ hk, ha] at hb
    exact Or.inl (Option.some.inj hb)

theorem subsMonoStep_congr_left {s si s' : StoreState}
    (h : si.subscriptions = s.subscriptions) (hm : SubsMonoStep si s') :
    SubsMonoStep s s' := by
  intro k a b htr ha hb
  refine hm k a b htr ?_ hb
  rw [h]
  exact ha

theorem donsMonoStep_congr_left {s si s' : StoreState}
    (h : si.donations = s.donations) (hm : DonsMonoStep si s') :
    DonsMonoStep s s' := by
  intro k a b ha hb
  refine hm k a b ?_ hb
  rw [h]
  exact ha

theorem newDonCore_mono (s : StoreState) (ev : Envelope) :
    SubsMonoStep s (handleNewDonationCore s ev).1 ∧
    DonsMonoStep s (handleNewDonationCore s ev).1 := by
  unfold handleNewDonationCore
  dsimp only
  cases hid : ev.payload.donation_request_id with
  | none => exact ⟨subsMonoStep_of_eq rfl, donsMonoStep_of_eq rfl⟩
  | some id =>
  dsimp only
  cases htg : ev.payload.telegram_user_id with
  | none => exact ⟨subsMonoStep_of_eq rfl, donsMonoStep_of_eq rfl⟩
  | some tg =>
  dsimp only
  cases hts : getEventTimestamp ev with
  | error e => exact ⟨subsMonoStep_of_eq rfl, donsMonoStep_of_eq rfl⟩
  | ok ts =>
  dsimp only
  cases hex : mapGet s.donations id with
  | none =>
    cases hca : getEventCreatedAt ev with
    | error e => exact ⟨subsMonoStep_of_eq rfl, donsMonoStep_of_eq rfl⟩
    | ok ca =>
      refine ⟨subsMonoStep_of_eq rfl, donsMonoStep_of_set rfl ?_⟩
      intro a ha
      rw [hex] at ha
      cases ha
  | some d =>
    dsimp only
    by_cases hdup : d.lastEventAt ≥ ts
    · have hg : isOutdatedEvent (some d.lastEventAt) ts = true := by
        simp [isOutdatedEvent, hdup]
      rw [if_pos hg]
      exact ⟨subsMonoStep_of_eq rfl, donsMonoStep_of_eq rfl⟩
    · have hg : ¬ (isOutdatedEvent (some d.lastEventAt) ts = true) := by
        simp [isOutdatedEvent, hdup]
      rw [if_neg hg]
      refine ⟨subsMonoStep_of_eq rfl, donsMonoStep_of_set rfl ?_⟩
      intro a ha
      rw [hex] at ha
      cases ha
      show d.lastEventAt < ts
      omega

theorem recurrentDonCore_mono (s : StoreState) (ev : Envelope) :
    SubsMonoStep s (handleRecurrentDonationCore s ev).1 ∧
    DonsMonoStep s (handleRecurrentDonationCore s ev).1 := by
  unfold handleRecurrentDonationCore
  dsimp only
  cases hid : ev.payload.donation_request_id with
  | none => exact ⟨subsMonoStep_of_eq rfl, donsMonoStep_of_eq rfl⟩
  | some id =>
  dsimp only
  cases htg : ev.payload.telegram_user_id with
  | none => exact ⟨subsMonoStep_of_eq rfl, donsMonoStep_of_eq rfl⟩
  | some tg =>
  dsimp only
  cases hts : getEventTimestamp ev with
  | error e => exact ⟨subsMonoStep_of_eq rfl, donsMonoStep_of_eq rfl⟩
  | ok ts =>
  dsimp only
  cases hex : mapGet s.donations id with
  | none =>
    cases hca : getEventCreatedAt ev with
    | error e => exact ⟨subsMonoStep_of_eq rfl, donsMonoStep_of_eq rfl⟩
    | ok ca =>
      refine ⟨subsMonoStep_of_eq rfl, donsMonoStep_of_set rfl ?_⟩
      intro a ha
      rw [hex] at ha
      cases ha
  | some d =>
    dsimp only
    by_cases hdup : d.lastEventAt ≥ ts
    · have hg : isOutdatedEvent (some d.lastEventAt) ts = true := by
        simp [isOutdatedEvent, hdup]
      rw [if_pos hg]
      exact ⟨subsMonoStep_of_eq rfl, donsMonoStep_of_eq rfl⟩
    · have hg : ¬ (isOutdatedEvent (some d.lastEventAt) ts = true) := by
        simp [isOutdatedEvent, hdup]
      rw [if_neg hg]
      refine ⟨subsMonoStep_of_eq rfl, donsMonoStep_of_set rfl ?_⟩
      intro a ha
      rw [hex] at ha
      cases ha
      show d.lastEventAt < ts
      omega

theorem cancelledDonCore_mono (s : StoreState) (ev : Envelope) :
    SubsMonoStep s (handleCancelledDonationCore s ev).1 ∧
    DonsMonoStep s (handleCancelledDonationCore s ev).1 := by
  unfold handleCancelledDonationCore
  dsimp only
  cases hid : ev.payload.donation_request_id with
  | none => exact ⟨subsMonoStep_of_eq rfl, donsMonoStep_of_eq rfl⟩
  | some id =>
  dsimp only
  cases hts : getEventTimestamp ev with
  | error e => exact ⟨subsMonoStep_of_eq rfl, donsMonoStep_of_eq rfl⟩
  | ok ts =>
  dsimp only
  cases hca : getEventCreatedAt ev with
  | error e => exact ⟨subsMonoStep_of_eq rfl, donsMonoStep_of_eq rfl⟩
  | ok ca =>
  dsimp only
  cases hex : mapGet s.donations id with
  | none =>
    unfold markDonationCancelled
    rw [hex]
    exact ⟨subsMonoStep_of_eq rfl, donsMonoStep_of_eq rfl⟩
  | some d =>
    dsimp only
    split
    · exact ⟨subsMonoStep_of_eq rfl, donsMonoStep_of_eq rfl⟩
    · split
      · exact ⟨subsMonoStep_of_eq rfl, donsMonoStep_of_eq rfl⟩
      · rename_i hg1 hg2
        simp only [isOutdatedEvent, decide_eq_true_eq, not_le] at hg2
        unfold markDonationCancelled
        rw [hex]
        dsimp only
        split
        · refine ⟨subsMonoStep_of_eq rfl,
            @donsMonoStep_of_set s _ id
              { d with status := .cancelled, cancelledAt := some ca, lastEventAt := ts }
              ?_ ?_⟩
          · rw [mapSet_mapSet_self]
          · intro a ha
            rw [hex] at ha
            cases ha
            show d.lastEventAt < ts
            omega
        · rename_i hfix
          refine ⟨subsMonoStep_of_eq rfl, donsMonoStep_of_set rfl ?_⟩
          intro a ha
          rw [hex] at ha
          cases ha
          exact lt_of_lt_of_le hg2 (not_lt.mp hfix)

theorem cancelledSubCore_mono (plans : List Plan) (s : StoreState)
    (ev : Envelope) :
    SubsMonoStep s (handleCancelledSubscriptionCore plans s ev).1 ∧
    DonsMonoStep s (handleCancelledSubscriptionCore plans s ev).1 := by
  unfold handleCancelledSubscriptionCore
  dsimp only
  cases hplan : findPlanForPayload plans ev.payload with
  | none => exact ⟨subsMonoStep_of_eq rfl, donsMonoStep_of_eq rfl⟩
  | some plan =>
  dsimp only
  cases hts : getEventTimestamp ev with
  | error e => exact ⟨subsMonoStep_of_eq rfl, donsMonoStep_of_eq rfl⟩
  | ok ts =>
  dsimp only
  cases hca : getEventCreatedAt ev with
  | error e => exact ⟨subsMonoStep_of_eq rfl, donsMonoStep_of_eq rfl⟩
  | ok ca =>
  dsimp only
  cases hex : (if truthyInt ev.payload.subscription_id = true then
      mapGet s.subscriptions ev.payload.subscription_id else none) with
  | some ex =>
    dsimp only
    have hkey : truthyInt ev.payload.subscription_id = true ∧
        mapGet s.subscriptions ev.payload.subscription_id = some ex := by
      by_cases htr : truthyInt ev.payload.subscription_id = true
      · exact ⟨htr, by rwa [if_pos htr] at hex⟩
      · rw [if_neg htr] at hex
        cases hex
    split
    · exact ⟨subsMonoStep_of_eq rfl, donsMonoStep_of_eq rfl⟩
    · split
      · exact ⟨subsMonoStep_of_eq rfl, donsMonoStep_of_eq rfl⟩
      · rename_i hg1 hg2
        simp only [isOutdatedEvent, decide_eq_true_eq, not_le] at hg2
        unfold markSubscriptionCancelled
        rw [hkey.2]
        dsimp only
        split
        · refine ⟨@subsMonoStep_of_set s _ ev.payload.subscription_id
              { ex with status := .cancelled, cancelledAt := some ca, cancelReason := ev.payload.cancel_reason, lastEventAt := ts }
              ?_ ?_, donsMonoStep_of_eq rfl⟩
          · rw [mapSet_mapSet_self]
          · intro htr a ha
            rw [hkey.2] at ha
            cases ha
            show ex.lastEventAt < ts
            omega
        · rename_i hfix
          refine ⟨subsMonoStep_of_set rfl ?_, donsMonoStep_of_eq rfl⟩
          intro htr a ha
          rw [hkey.2] at ha
          cases ha
          exact lt_of_lt_of_le hg2 (not_lt.mp hfix)
  | none =>
    dsimp only
    by_cases htr : truthyInt ev.payload.subscription_id = true
    · have hmg : mapGet s.subscriptions ev.payload.subscription_id = none := by
        rwa [if_pos htr] at hex
      unfold markSubscriptionCancelled
      rw [hmg]
      exact ⟨subsMonoStep_of_eq rfl, donsMonoStep_of_eq rfl⟩
    · cases hmg : mapGet s.subscriptions ev.payload.subscription_id with
      | none =>
        unfold markSubscriptionCancelled
        rw [hmg]
        exact ⟨subsMonoStep_of_eq rfl, donsMonoStep_of_eq rfl⟩
      | some sub =>
        simp only [Bool.false_eq_true, if_false]
        unfold markSubscriptionCancelled
        rw [hmg]
        dsimp only
        split
        · refine ⟨@subsMonoStep_of_set s _ ev.payload.subscription_id
              { sub with status := .cancelled, cancelledAt := some ca, cancelReason := ev.payload.cancel_reason, lastEventAt := ts }
              ?_ ?_, donsMonoStep_of_eq rfl⟩
          · rw [mapSet_mapSet_self]
          · intro htr2 a ha
            exact absurd htr2 htr
        · refine ⟨subsMonoStep_of_set rfl ?_, donsMonoStep_of_eq rfl⟩
          intro htr2 a ha
          exact absurd htr2 htr

theorem newSubCore_mono (plans : List Plan) (now : Int) (s : StoreState)
    (ev : Envelope) :
    SubsMonoStep s (handleNewSubscriptionCore plans now s ev).1 ∧
    DonsMonoStep s (handleNewSubscriptionCore plans now s ev).1 := by
  unfold handleNewSubscriptionCore
  dsimp only
  cases hplan : findPlanForPayload plans ev.payload with
  | none => exact ⟨subsMonoStep_of_eq rfl, donsMonoStep_of_eq rfl⟩
  | some plan =>
  dsimp only
  cases hts : getEventTimestamp ev with
  | error e => exact ⟨subsMonoStep_of_eq rfl, donsMonoStep_of_eq rfl⟩
  | ok ts =>
  dsimp only
  cases hca : getEventCreatedAt ev with
  | error e => exact ⟨subsMonoStep_of_eq rfl, donsMonoStep_of_eq rfl⟩
  | ok ca =>
  dsimp only
  cases hex : (if truthyInt ev.payload.subscription_id = true then
      mapGet s.subscriptions ev.payload.subscription_id else none) with
  | some ex =>
    dsimp only
    have hkey : truthyInt ev.payload.subscription_id = true ∧
        mapGet s.subscriptions ev.payload.subscription_id = some ex := by
      by_cases htr : truthyInt ev.payload.subscription_id = true
      · exact ⟨htr, by rwa [if_pos htr] at hex⟩
      · rw [if_neg htr] at hex
        cases hex
    split
    · exact ⟨subsMonoStep_of_eq rfl, donsMonoStep_of_eq rfl⟩
    · rename_i hg
      simp only [isOutdatedEvent, decide_eq_true_eq, not_le] at hg
      split
      · exact ⟨subsMonoStep_of_eq rfl, donsMonoStep_of_eq rfl⟩
      · refine ⟨subsMonoStep_of_set rfl ?_, donsMonoStep_of_eq rfl⟩
        intro htr a ha
        rw [hkey.2] at ha
        cases ha
        show ex.lastEventAt < ts
        omega
  | none =>
    dsimp only
    simp only [Bool.false_eq_true, if_false]
    rcases hri : resolveIntent now s plan ev.payload ts with ⟨si, ri⟩
    have hf := resolveIntent_fields now s plan ev.payload ts
    rw [hri] at hf
    simp only [hri]
    cases ri with
    | error e =>
      simp only [Except.map]
      exact ⟨subsMonoStep_of_eq hf.1, donsMonoStep_of_eq hf.2.2.1⟩
    | ok p =>
      simp only [Except.map]
      dsimp only
      split
      · exact ⟨subsMonoStep_of_eq hf.1, donsMonoStep_of_eq hf.2.2.1⟩
      · refine ⟨subsMonoStep_congr_left hf.1 (subsMonoStep_of_set rfl ?_),
          donsMonoStep_of_eq hf.2.2.1⟩
        intro htr a ha
        rw [hf.1] at ha
        rw [if_pos htr] at hex
        rw [hex] at ha
        cases ha

theorem processCore_mono (plans : List Plan) (now : Int) (s : StoreState)
    (ev : Envelope) :
    SubsMonoStep s (processCore plans now s ev).1 ∧
    DonsMonoStep s (processCore plans now s ev).1 := by
  unfold processCore
  split
  · exact newSubCore_mono plans now s ev
  split
  · exact cancelledSubCore_mono plans s ev
  split
  · exact newDonCore_mono s ev
  split
  · exact recurrentDonCore_mono s ev
  split
  · exact cancelledDonCore_mono s ev
  exact ⟨subsMonoStep_of_eq rfl, donsMonoStep_of_eq rfl⟩

/-- **C2** (amended): across any single `handleWebhook` delivery —
any signature outcome, any event name, any payload — every
subscription stored under a truthy provider `subscription_id` and
every stored donation is afterwards either byte-identical or has its
`lastEventAt` strictly raised; in particular `lastEventAt` never
decreases on those records and an event that modifies one strictly
raises it.  The original claim's further reach is refuted elsewhere:
the manual `cancelSubscriptionLocally` path can lower `lastEventAt`
(see the counterexample on `c2state`), and a record stored under the
missing (`undefined`) subscription id is rewritten without any
ordering guard by later id-less events. -/
theorem c2_lastEventAt_monotone (cfg : Config) (now : Int) (s : StoreState)
    (sig : Bool) (ev : Envelope) :
    SubsMonoStep s (handleWebhook cfg now s sig ev).1 ∧
    DonsMonoStep s (handleWebhook cfg now s sig ev).1 := by
  unfold handleWebhook
  cases sig with
  | false => exact ⟨subsMonoStep_of_eq rfl, donsMonoStep_of_eq rfl⟩
  | true =>
    cases hcon : cfg.allowedWebhookEvents.contains ev.name with
    | false =>
      exact ⟨subsMonoStep_of_eq rfl, donsMonoStep_of_eq rfl⟩
    | true =>
      have hp := processCore_mono cfg.plans now s ev
      have hf := finishEvent_fields cfg (processCore cfg.plans now s ev)
      simp only [eq_self_iff_true, not_true, if_false]
      constructor
      · intro k a b htr ha hb
        rw [hf.1] at hb
        exact hp.1 k a b htr ha hb
      · intro k a b ha hb
        rw [hf.2.1] at hb
        exact hp.2 k a b ha hb

end Tribute
